import Mathlib

/-!
# Verification of the moltbot-isolated sticky-routing worker pool

Shallow embedding of the sticky router (`src/workers/sticky-router.ts`),
the worker sandbox path helpers and instance keys (`src/workers/worker-sandbox.ts`),
and the supervisor's restart bookkeeping (`src/workers/worker-pool.ts`),
together with proofs about them.

Conventions:
* JS 32-bit integer arithmetic is modelled on `Nat` with explicit `% 2^32`
  (bit patterns of `^`, `Math.imul` and `>>> 0` agree with this model).
* JS `Set` is modelled as an insertion-ordered duplicate-free `List`,
  JS `Map` as an insertion-ordered association list with unique keys.
* Methods that `throw` are modelled as `Option`-returning functions.
-/

namespace Moltbot

set_option maxRecDepth 40000

set_option maxHeartbeats 10000000

abbrev WorkerId := String
abbrev UserId := String

/-- Modulus of JS 32-bit integer arithmetic, `2^32`. -/
def U32 : Nat := 4294967296

/-! ## FNV-1a hash (`fnv1aHash` in sticky-router.ts) -/

/-- The UTF-16 code units of a string, i.e. the values returned by JS
`str.charCodeAt(i)` for `i = 0 .. str.length - 1` (surrogate pairs for
characters outside the BMP). -/
def utf16Units (s : String) : List Nat :=
  (s.data.map (fun c =>
    let n := c.toNat
    if n < 65536 then [n]
    else [55296 + (n - 65536) / 1024, 56320 + (n - 65536) % 1024])).flatten

/-- One step of the FNV-1a loop: the XOR with the code unit followed by `Math.imul(hash, 16777619)`. -/
def fnvStep (h c : Nat) : Nat := ((h ^^^ c) * 16777619) % U32

/-- Function `fnv1aHash` from sticky-router.ts: FNV-1a folded over the `charCodeAt`
values (UTF-16 code units) of the string, offset basis `2166136261`,
prime `16777619`, folded to an unsigned 32-bit integer. -/
def fnv1aHash (s : String) : Nat :=
  (utf16Units s).foldl fnvStep 2166136261

/-! ## Hash ring and binary search (`findNode` in sticky-router.ts) -/

structure HashRingNode where
  hash : Nat
  workerId : WorkerId
  virtualIndex : Nat
deriving Repr, DecidableEq

/-- Placeholder node used to totalise list indexing (the source indexes
arrays only inside proven bounds). -/
def defaultNode : HashRingNode := ⟨0, "", 0⟩

/-- The `while (left < right)` binary-search loop of `findNode`:
returns the index of the first node with `hash ≥ target` within
`[left, right]`, assuming one exists at `right`. The interval shrinks at
every iteration, so any `fuel ≥ right - left` runs the loop to completion. -/
def findNodeGo (ring : List HashRingNode) (target : Nat) :
    Nat → Nat → Nat → Nat
  | 0, left, _ => left
  | fuel + 1, left, right =>
    if left < right then
      let mid := (left + right) / 2
      if (ring.getD mid defaultNode).hash < target then
        findNodeGo ring target fuel (mid + 1) right
      else
        findNodeGo ring target fuel left mid
    else left

/-- Function `findNode` from sticky-router.ts. The source throws on an empty ring;
we return `none` there. Otherwise: if the target exceeds the last (largest)
hash, wrap to the first node, else binary-search for the first node with
`hash ≥ target`. -/
def findNode (ring : List HashRingNode) (target : Nat) : Option HashRingNode :=
  match ring with
  | [] => none
  | _ :: _ =>
    if (ring.getD (ring.length - 1) defaultNode).hash < target then
      some (ring.getD 0 defaultNode)
    else
      some (ring.getD (findNodeGo ring target ring.length 0 (ring.length - 1)) defaultNode)

/-! ## JS `Map` as an association list -/

/-- Lookup `Map.get`: value of the first (unique) entry with the given key. -/
def mapGet (m : List (String × String)) (k : String) : Option String :=
  (m.find? (fun p => p.1 == k)).map (fun p => p.2)

/-- Update `Map.set`: replace in place if the key is present, else append. -/
def mapSet (m : List (String × String)) (k v : String) : List (String × String) :=
  if m.any (fun p => p.1 == k) then
    m.map (fun p => if p.1 == k then (k, v) else p)
  else
    m ++ [(k, v)]

/-! ## The sticky router -/

/-- State of a `StickyRouter`: sorted hash ring, insertion-ordered worker
set, user→worker assignment cache, virtual-node count. -/
structure StickyRouter where
  ring : List HashRingNode
  workers : List WorkerId
  routingCache : List (UserId × WorkerId)
  virtualNodes : Nat
deriving Repr, DecidableEq

/-- Constructor `new StickyRouter(virtualNodes)`. -/
def StickyRouter.new (virtualNodes : Nat) : StickyRouter :=
  { ring := [], workers := [], routingCache := [], virtualNodes := virtualNodes }

/-- Ring comparator from the source: `(a, b) => a.hash - b.hash`
(ascending by hash; JS `Array.prototype.sort` is stable). -/
def nodeLe (a b : HashRingNode) : Bool := a.hash ≤ b.hash

/-- Stable insertion of a node into a list: `a` goes in front of the first
element it compares `≤` to, so earlier elements stay in front of later
equal-hash elements. -/
def insertNode (a : HashRingNode) : List HashRingNode → List HashRingNode
  | [] => [a]
  | b :: t => if nodeLe a b then a :: b :: t else b :: insertNode a t

/-- Model of `this.ring.sort((a, b) => a.hash - b.hash)`: JS `Array.prototype.sort`
is required to be stable, and the stable sort by a total preorder is unique
(`Moltbot.sorted_eq_of_hashFilter_eq` below), so we model it by the stable
insertion sort. -/
def sortNodes (l : List HashRingNode) : List HashRingNode :=
  l.foldr insertNode []

/-- The `virtualNodes` ring nodes pushed for worker `w`
(virtual keys of the form workerId, colon, index). -/
def nodeBlock (w : WorkerId) (vn : Nat) : List HashRingNode :=
  (List.range vn).map (fun i =>
    { hash := fnv1aHash (w ++ ":" ++ toString i), workerId := w, virtualIndex := i })

/-- Method `addWorker`: no-op when already present; else add to the worker set,
push the virtual nodes and re-sort the ring (stable sort by hash).
`invalidateAffectedRoutes` is a no-op in the source, so the cache is
untouched. -/
def StickyRouter.addWorker (r : StickyRouter) (w : WorkerId) : StickyRouter :=
  if r.workers.contains w then r
  else
    { r with
      workers := r.workers ++ [w]
      ring := sortNodes (r.ring ++ nodeBlock w r.virtualNodes) }

/-- Method `removeWorker`: no-op when absent; else drop the worker, its ring
nodes, and every cache entry mapping to it. -/
def StickyRouter.removeWorker (r : StickyRouter) (w : WorkerId) : StickyRouter :=
  if r.workers.contains w then
    { r with
      workers := r.workers.filter (fun x => x ≠ w)
      ring := r.ring.filter (fun n => n.workerId ≠ w)
      routingCache := r.routingCache.filter (fun p => p.2 ≠ w) }
  else r

/-- Routing decision returned by `route`. -/
structure RoutingDecision where
  workerId : WorkerId
  userId : UserId
  hashValue : Nat
  isNewAssignment : Bool
deriving Repr, DecidableEq

/-- Method `route(userId)`. The source throws `No workers available for routing`
on an empty ring; we return `none`. The cache hit test is the JS
truthiness test `cachedWorkerId && this.workers.has(cachedWorkerId)`:
`undefined` and the empty string are both falsy, which `(mapGet …).getD ""`
models exactly. `isNewAssignment` on the lookup path is `!cachedWorkerId`. -/
def StickyRouter.route (r : StickyRouter) (userId : UserId) :
    Option (RoutingDecision × StickyRouter) :=
  match r.ring with
  | [] => none
  | _ :: _ =>
    let cw := (mapGet r.routingCache userId).getD ""
    let hashValue := fnv1aHash userId
    if cw ≠ "" ∧ r.workers.contains cw then
      some ({ workerId := cw, userId := userId, hashValue := hashValue,
              isNewAssignment := false }, r)
    else
      let node := (findNode r.ring hashValue).getD defaultNode
      some ({ workerId := node.workerId, userId := userId, hashValue := hashValue,
              isNewAssignment := cw == "" },
            { r with routingCache := mapSet r.routingCache userId node.workerId })

/-- Method `peek(userId)`: ring lookup with no cache read or write
(`null` on an empty ring). -/
def StickyRouter.peek (r : StickyRouter) (userId : UserId) : Option WorkerId :=
  match r.ring with
  | [] => none
  | _ :: _ => some (((findNode r.ring (fnv1aHash userId)).getD defaultNode).workerId)

/-- Method `forceAssign(userId, workerId)`: throws (`none`) when the worker is
not registered, else installs the cache entry. -/
def StickyRouter.forceAssign (r : StickyRouter) (u : UserId) (w : WorkerId) :
    Option StickyRouter :=
  if r.workers.contains w then
    some { r with routingCache := mapSet r.routingCache u w }
  else none

/-- Method `clearAssignment(userId)`. -/
def StickyRouter.clearAssignment (r : StickyRouter) (u : UserId) : StickyRouter :=
  { r with routingCache := r.routingCache.filter (fun p => p.1 ≠ u) }

/-- Method `clearCache()`. -/
def StickyRouter.clearCache (r : StickyRouter) : StickyRouter :=
  { r with routingCache := [] }

/-- Method `getDistribution()`: count of cached assignments per registered worker. -/
def StickyRouter.getDistribution (r : StickyRouter) : List (WorkerId × Nat) :=
  let init := r.workers.map (fun w => (w, 0))
  r.routingCache.foldl
    (fun d p => d.map (fun q => if q.1 == p.2 then (q.1, q.2 + 1) else q))
    init

/-- Serializable router state (`StickyRouterState`). -/
structure StickyRouterState where
  workers : List WorkerId
  assignments : List (UserId × WorkerId)
  virtualNodes : Nat
deriving Repr, DecidableEq

/-- Method `exportState()`. -/
def StickyRouter.exportState (r : StickyRouter) : StickyRouterState :=
  { workers := r.workers, assignments := r.routingCache, virtualNodes := r.virtualNodes }

/-- Static method `StickyRouter.fromState`: rebuild via `addWorker`, then re-insert every
assignment whose worker is registered, dropping the rest. -/
def StickyRouter.fromState (st : StickyRouterState) : StickyRouter :=
  let r1 := st.workers.foldl (fun r w => r.addWorker w) (StickyRouter.new st.virtualNodes)
  { r1 with
    routingCache :=
      st.assignments.foldl
        (fun c p => if r1.workers.contains p.2 then mapSet c p.1 p.2 else c)
        r1.routingCache }

/-! ## Router invariants -/

/-- Consistency invariant of the router (spec §3): every cached assignment
maps to a registered worker, every registered worker has exactly
`virtualNodes` ring nodes, and every ring node belongs to a registered
worker. -/
def StickyRouter.Inv (r : StickyRouter) : Prop :=
  (∀ p ∈ r.routingCache, p.2 ∈ r.workers) ∧
  (∀ w ∈ r.workers, (r.ring.countP (fun n => n.workerId == w)) = r.virtualNodes) ∧
  (∀ n ∈ r.ring, n.workerId ∈ r.workers)

/-- Representation invariants inherited from the JS containers: the worker
`Set` has no duplicates and the cache `Map` has unique keys; additionally
the ring is exactly the stable sort of the registered workers' node blocks
in registration order. -/
def StickyRouter.WF (r : StickyRouter) : Prop :=
  r.workers.Nodup ∧
  (r.routingCache.map (fun p => p.1)).Nodup ∧
  r.ring = sortNodes ((r.workers.map (fun w => nodeBlock w r.virtualNodes)).flatten)

/-- Routers reachable through the public API of the class. -/
inductive StickyRouter.Reachable : StickyRouter → Prop where
  | new (vn : Nat) : StickyRouter.Reachable (StickyRouter.new vn)
  | addWorker {r} (w : WorkerId) : StickyRouter.Reachable r →
      StickyRouter.Reachable (r.addWorker w)
  | removeWorker {r} (w : WorkerId) : StickyRouter.Reachable r →
      StickyRouter.Reachable (r.removeWorker w)
  | route {r r2 : StickyRouter} {u : UserId} {d : RoutingDecision} :
      StickyRouter.Reachable r → r.route u = some (d, r2) → StickyRouter.Reachable r2
  | forceAssign {r r2 : StickyRouter} {u : UserId} {w : WorkerId} :
      StickyRouter.Reachable r → r.forceAssign u w = some r2 → StickyRouter.Reachable r2
  | clearAssignment {r} (u : UserId) : StickyRouter.Reachable r →
      StickyRouter.Reachable (r.clearAssignment u)
  | clearCache {r} : StickyRouter.Reachable r → StickyRouter.Reachable r.clearCache
  | fromState (st : StickyRouterState) : StickyRouter.Reachable (StickyRouter.fromState st)

/-! ## Specification-side FNV-1a over UTF-8 bytes (for claim C3)

The spec says the hash is computed "over the UTF-8 bytes of the key";
the implementation iterates `charCodeAt` (UTF-16 code units). The
following definition follows the spec's words, for comparison. -/

/-- UTF-8 encoding of a string as a byte list. -/
def utf8Bytes (s : String) : List Nat :=
  (s.data.map (fun c =>
    let n := c.toNat
    if n < 128 then [n]
    else if n < 2048 then [192 + n / 64, 128 + n % 64]
    else if n < 65536 then [224 + n / 4096, 128 + (n / 64) % 64, 128 + n % 64]
    else [240 + n / 262144, 128 + (n / 4096) % 64, 128 + (n / 64) % 64, 128 + n % 64])).flatten

/-- FNV-1a exactly as the spec describes it: folded over the UTF-8 bytes
of the key, offset basis 0x811C9DC5, prime 0x01000193, XOR then multiply
per byte, 32-bit unsigned. -/
def fnv1aHashUtf8Spec (s : String) : Nat :=
  (utf8Bytes s).foldl fnvStep 2166136261

/-! ## Worker sandbox: path sanitization (worker-sandbox.ts) -/

/-- Characters allowed by the session-id sanitizer regex
(letters, digits, underscore, hyphen — no dot). -/
def sessionAllowed (c : Char) : Bool :=
  (97 ≤ c.toNat ∧ c.toNat ≤ 122) ∨ (65 ≤ c.toNat ∧ c.toNat ≤ 90) ∨
    (48 ≤ c.toNat ∧ c.toNat ≤ 57) ∨ c = '_' ∨ c = '-'

/-- Characters allowed by the general filename sanitizer regex
(letters, digits, dot, underscore, hyphen). -/
def nameAllowed (c : Char) : Bool :=
  sessionAllowed c ∨ c = '.'

/-- Model of `sessionId.replace` with the session regex: every character
outside the allowlist is replaced by an underscore. -/
def sanitizeSessionId (s : String) : String :=
  ⟨s.data.map (fun c => if sessionAllowed c then c else '_')⟩

/-- Model of `name.replace` with the general filename regex. -/
def sanitizeName (s : String) : String :=
  ⟨s.data.map (fun c => if nameAllowed c then c else '_')⟩

/-- Paths are modelled as lists of path segments; `join` appends segments.
The sandbox root (`<baseDir>/<workerId>`) is an abstract segment list. -/
def getSessionPathSegs (root : List String) (sessionId : String) : List String :=
  root ++ ["sessions", sanitizeSessionId sessionId ++ ".json"]

/-- Segment-level model of `getTempPath`. -/
def getTempPathSegs (root : List String) (filename : String) : List String :=
  root ++ ["temp", sanitizeName filename]

/-- Segment-level model of `getCachePath`. -/
def getCachePathSegs (root : List String) (key : String) : List String :=
  root ++ ["cache", sanitizeName key]

/-- Segment-level model of `getStatePath`. -/
def getStatePathSegs (root : List String) (name : String) : List String :=
  root ++ ["state", sanitizeName name ++ ".json"]

/-- Segment-level model of `getLogPath`. -/
def getLogPathSegs (root : List String) (name : String) : List String :=
  root ++ ["logs", sanitizeName name ++ ".log"]

/-- Filesystem resolution of a segment path: a `.` segment is dropped, a
`..` segment removes the previous segment (at the root it stays at the
root), any other segment descends. -/
def resolveSegs (segs : List String) : List String :=
  segs.foldl
    (fun acc seg =>
      if seg = "." then acc
      else if seg = ".." then acc.dropLast
      else acc ++ [seg])
    []

/-- A normalized directory prefix: no empty, `.` or `..` segments. -/
def NormalizedSegs (segs : List String) : Prop :=
  ∀ seg ∈ segs, seg ≠ "" ∧ seg ≠ "." ∧ seg ≠ ".."

/-! ## Worker sandbox: instance keys (worker-sandbox.ts, keys variant) -/

/-- Hex digit characters, lowercase, as produced by `Buffer.toString` with
base 16. -/
def hexDigit (n : Nat) : Char :=
  if n < 10 then Char.ofNat (48 + n) else Char.ofNat (87 + n)

/-- Lowercase hex encoding of a byte list (two digits per byte). -/
def hexEncode (bytes : List Nat) : String :=
  ⟨(bytes.map (fun b => [hexDigit (b / 16), hexDigit (b % 16)])).flatten⟩

/-- Numeric value of a hex digit character, `none` when not a hex digit. -/
def hexVal (c : Char) : Option Nat :=
  if 48 ≤ c.toNat ∧ c.toNat ≤ 57 then some (c.toNat - 48)
  else if 97 ≤ c.toNat ∧ c.toNat ≤ 102 then some (c.toNat - 87)
  else if 65 ≤ c.toNat ∧ c.toNat ≤ 70 then some (c.toNat - 55)
  else none

/-- Model of `Buffer.from(hex, 'hex')`: decode hex digit pairs from the
front, stopping at the first non-hex pair or lone trailing digit. -/
def hexDecodeChars : List Char → List Nat
  | c1 :: c2 :: rest =>
    match hexVal c1, hexVal c2 with
    | some h, some l => (16 * h + l) :: hexDecodeChars rest
    | _, _ => []
  | _ => []

/-- Byte list decoded from a hex string. -/
def hexDecode (s : String) : List Nat := hexDecodeChars s.data

/-- JS whitespace test for `String.prototype.trim` (the characters relevant
here; file contents written by the sandbox are hex digits, digits and
hyphens, none of which is whitespace). -/
def jsWhitespace (c : Char) : Bool :=
  c = ' ' ∨ c = '\t' ∨ c = '\n' ∨ c = '\r' ∨ c.toNat = 11 ∨ c.toNat = 12

/-- Model of `String.prototype.trim`. -/
def jsTrim (s : String) : String :=
  ⟨(s.data.dropWhile jsWhitespace).reverse.dropWhile jsWhitespace |>.reverse⟩

/-- Contents of the two key files under `keys/` (`none` when the file is
missing or unreadable, which makes `readFile` reject). -/
structure KeysDir where
  keyFile : Option String
  idFile : Option String
deriving Repr, DecidableEq

/-- Instance keys record (types.ts `InstanceKeys`): private key bytes,
instance id, fingerprint. -/
structure InstanceKeys where
  privateKey : List Nat
  instanceId : String
  fingerprint : String
deriving Repr, DecidableEq

/-- Method `generateInstanceKeys`: create a 32-byte private key (the
`randomBytes(32)` result is passed in as `rnd32`), fingerprint = first
8 bytes hex, instance id `workerId-now-rnd4hex`, and persist both files
(the key hex-encoded). -/
def generateInstanceKeys (workerId : String) (rnd32 rnd4 : List Nat) (now : Nat) :
    InstanceKeys × KeysDir :=
  let fingerprint := hexEncode (rnd32.take 8)
  let instanceId := workerId ++ "-" ++ toString now ++ "-" ++ hexEncode rnd4
  ({ privateKey := rnd32, instanceId := instanceId, fingerprint := fingerprint },
   { keyFile := some (hexEncode rnd32), idFile := some instanceId })

/-- Method `getOrCreateInstanceKeys`: if both files read successfully, the
key is decoded from the stored hex (after `trim`) and the fingerprint is
the first 8 bytes in hex, with no writes; otherwise new keys are
generated and persisted. -/
def getOrCreateInstanceKeys (workerId : String) (fs : KeysDir)
    (rnd32 rnd4 : List Nat) (now : Nat) : InstanceKeys × KeysDir :=
  match fs.keyFile, fs.idFile with
  | some keyHex, some idStr =>
    let privateKey := hexDecode (jsTrim keyHex)
    ({ privateKey := privateKey, instanceId := jsTrim idStr,
       fingerprint := hexEncode (privateKey.take 8) }, fs)
  | _, _ => generateInstanceKeys workerId rnd32 rnd4 now

/-! ## Supervisor restart bookkeeping (worker-pool.ts, handleWorkerExit) -/

/-- Outcome of one `handleWorkerExit` for the restart decision: whether the
slot was latched `Crashed`, and the slot's `restartTimes` afterwards. -/
structure ExitOutcome where
  crashed : Bool
  restartTimes : List Nat
deriving Repr, DecidableEq

/-- Restart bookkeeping of `handleWorkerExit` (lines 536-551): drop
restart times older than `restartWindow`, then, if at least
`maxRestartAttempts` remain, latch `Crashed` (without recording `now`);
otherwise record `now` and schedule a re-spawn after `restartDelay`. -/
def handleWorkerExitTimes (restartTimes : List Nat) (now window maxAttempts : Nat) :
    ExitOutcome :=
  let ts := restartTimes.filter (fun t => now - t < window)
  if maxAttempts ≤ ts.length then
    { crashed := true, restartTimes := ts }
  else
    { crashed := false, restartTimes := ts ++ [now] }

/-- Successive exits of the same slot: fold `handleWorkerExitTimes` over
the exit times, collecting the crash decision of each exit. -/
def simulateExits (exits : List Nat) (window maxAttempts : Nat) : List Bool × List Nat :=
  exits.foldl
    (fun acc now =>
      let o := handleWorkerExitTimes acc.2 now window maxAttempts
      (acc.1 ++ [o.crashed], o.restartTimes))
    ([], [])

/-! ## Concrete data for the distribution claim (C6) -/

/-- Router of the distribution test: default 150 virtual nodes, workers
worker-0 .. worker-3. -/
def c6Router : StickyRouter :=
  (List.range 4).foldl (fun r i => r.addWorker ("worker-" ++ toString i)) (StickyRouter.new 150)

/-- The 1000 distinct user ids user-0 .. user-999. -/
def c6Users : List String := (List.range 1000).map (fun i => "user-" ++ toString i)

/-- Routes a list of user ids in order, threading the router state
(`route` never fails on a nonempty ring, and on an empty ring the state
is unchanged). -/
def routeAll (r : StickyRouter) (us : List String) : StickyRouter :=
  us.foldl (fun r u => match r.route u with | some (_, r2) => r2 | none => r) r

/-- Ring lookup result for a target hash, phrased by linear search:
the first node with hash ≥ target, wrapping to the first node. Proven
equal to the source's binary search on sorted rings
(`Moltbot.findNode_eq_findFirst` below). -/
def findFirstNode (ring : List HashRingNode) (target : Nat) : Option HashRingNode :=
  match ring with
  | [] => none
  | _ :: _ => some ((ring.find? (fun n => target ≤ n.hash)).getD (ring.getD 0 defaultNode))

/-! ## Decoded concrete data for the distribution claim

Long list literals are stored as compact strings and decoded by the
(executable) functions below; the decoded values are checked against the
source-translated definitions by kernel evaluation in the C6 theorems. -/

/-- Splits a character list at a separator. -/
def splitChars (sep : Char) : List Char → List (List Char)
  | [] => [[]]
  | c :: t =>
    let r := splitChars sep t
    if c = sep then [] :: r
    else
      match r with
      | [] => [[c]]
      | h :: t2 => (c :: h) :: t2

/-- Decimal value of a digit string. -/
def natOfChars (l : List Char) : Nat :=
  l.foldl (fun acc c => 10 * acc + (c.toNat - 48)) 0

/-- Hash ring of the 4-worker, 150-virtual-node router, sorted by hash:
each entry is hash, worker index and virtual index. -/
def c6RingData : String := "3946137.3.73;4093232.3.63;4931875.3.13;10559970.0.6;20723756.3.74;20870851.3.62;21709494.3.10;27337589.0.7;37501375.3.75;37648470.3.61;38487113.3.11;44115208.0.8;54278994.3.76;54426089.3.60;54573184.3.56;55264732.3.16;60892827.0.9;71056613.3.77;71203708.3.67;71350803.3.57;72042351.3.17;87834232.3.78;87981327.3.66;88128422.3.54;88819970.3.14;104611851.3.79;104758946.3.65;104906041.3.55;105597589.3.15;121536565.3.64;121683660.3.52;138461279.3.53;155238898.3.50;155930446.3.18;157210374.3.98;171869422.3.69;172016517.3.51;172708065.3.19;173987993.3.99;188647041.3.68;209501264.3.119;226278883.3.118;241245564.3.89;257876088.3.92;258023183.3.88;274653707.3.93;289459850.3.58;291431326.3.90;306237469.3.59;308208945.3.91;308356040.3.85;324986564.3.96;325133659.3.84;341764183.3.97;341911278.3.87;343722216.3.111;355578512.3.7;358541802.3.94;358688897.3.86;360499835.3.110;372356131.3.6;375319421.3.95;375466516.3.81;377277454.3.113;389133750.3.5;392244135.3.80;394055073.3.112;405911369.3.4;409021754.3.83;410832692.3.115;422688988.3.3;425799373.3.82;427610311.3.114;439466607.3.2;444387930.3.117;456244226.3.1;461165549.3.116;472823184.1.50;473021845.3.0;489600803.1.51;506378422.1.52;523156041.1.53;523303136.1.43;539933660.1.54;540080755.1.42;556711279.1.55;556858374.1.41;557523760.2.11;557844112.1.25;573488898.1.56;573635993.1.40;573783088.1.76;574301379.2.10;574621731.1.24;590266517.1.57;590413612.1.47;590465178.3.9;590560707.1.77;591078998.2.13;591399350.1.27;607044136.1.58;607191231.1.46;607242797.3.8;607338326.1.74;607856617.2.12;608003712.2.64;608176969.1.26;623821755.1.59;623968850.1.45;624115945.1.75;624263040.1.69;624634236.2.15;624781331.2.65;624954588.1.21;640746469.1.44;640893564.1.72;641040659.1.68;641411855.2.14;641558950.2.66;641732207.1.20;657671183.1.73;658189474.2.17;658336569.2.67;658509826.1.23;674448802.1.70;674967093.2.16;675114188.2.60;675287445.1.22;690464784.2.99;691079326.1.49;691226421.1.71;691744712.2.19;691891807.2.61;707242403.2.98;707856945.1.48;708522331.2.18;708669426.2.62;725447045.2.63;744947702.2.8;758483992.1.61;759175540.1.29;761725321.2.9;775261611.1.60;775953159.1.28;792039230.1.63;808669754.1.78;808816849.1.62;809335140.2.68;824685736.2.91;825447373.1.79;825594468.1.65;826112759.2.69;841463355.2.90;842372087.1.64;845613416.2.2;858240974.2.93;859149706.1.67;862391035.2.3;875018593.2.92;875927325.1.66;879168654.2.0;891796212.2.95;895946273.2.1;908573831.2.94;912723892.2.6;925351450.2.97;929501511.2.7;941971920.1.117;942129069.2.96;946279130.2.4;957910896.1.148;958749539.1.116;963056749.2.5;974688515.1.149;975527158.1.115;992304777.1.114;1009082396.1.113;1025860015.1.112;1026007110.1.128;1042637634.1.111;1042784729.1.129;1059415253.1.110;1092131848.1.140;1108909467.1.141;1110042300.1.139;1125687086.1.142;1126672824.1.122;1126819919.1.138;1142464705.1.143;1143450443.1.123;1159242324.1.144;1160228062.1.120;1176019943.1.145;1176858586.1.119;1177005681.1.121;1177152776.1.135;1192797562.1.146;1193636205.1.118;1193783300.1.126;1193930395.1.134;1209575181.1.147;1210560919.1.127;1210708014.1.137;1227338538.1.124;1227485633.1.136;1244116157.1.125;1244263252.1.131;1261040871.1.130;1277818490.1.133;1294596109.1.132;1318861200.0.13;1335638819.0.12;1343756544.2.110;1352416438.0.11;1360534163.2.111;1369194057.0.10;1369341152.0.26;1377311782.2.112;1385971676.0.17;1386118771.0.27;1394089401.2.113;1402749295.0.16;1402896390.0.24;1403882128.0.88;1410867020.2.114;1419526914.0.15;1419674009.0.25;1419821104.0.39;1420659747.0.89;1427644639.2.115;1436304533.0.14;1436451628.0.22;1436598723.0.38;1444422258.2.116;1453229247.0.23;1461199877.2.117;1470006866.0.20;1477977496.2.118;1486637390.0.19;1486784485.0.21;1487917318.0.99;1494755115.2.119;1503415009.0.18;1504694937.0.98;1537411532.0.48;1538103080.0.80;1554042056.0.31;1554189151.0.49;1554880699.0.81;1570819675.0.30;1571658318.0.82;1587597294.0.33;1588435937.0.83;1588583032.0.93;1604227818.0.28;1604374913.0.32;1604522008.0.44;1605213556.0.84;1605360651.0.92;1609479904.0.130;1621005437.0.29;1621152532.0.35;1621299627.0.45;1621991175.0.85;1622138270.0.91;1626257523.0.131;1637930151.0.34;1638077246.0.46;1638768794.0.86;1638915889.0.90;1643035142.0.132;1654707770.0.37;1654854865.0.47;1655546413.0.87;1655693508.0.97;1659812761.0.133;1659959856.0.123;1671485389.0.36;1671632484.0.40;1672471127.0.96;1676590380.0.134;1676737475.0.122;1688410103.0.41;1689248746.0.95;1693367999.0.135;1693515094.0.121;1694500832.0.145;1696925186.2.149;1705187722.0.42;1706026365.0.94;1710145618.0.136;1710292713.0.120;1710439808.0.116;1711278451.0.144;1713702805.2.148;1721965341.0.43;1726923237.0.137;1727070332.0.127;1727217427.0.117;1728056070.0.147;1730480424.2.147;1743700856.0.138;1743847951.0.126;1743995046.0.114;1744833689.0.146;1747258043.2.146;1760478475.0.139;1760625570.0.125;1760772665.0.115;1761611308.0.141;1764035662.2.145;1777403189.0.124;1777550284.0.112;1778388927.0.140;1780813281.2.144;1794327903.0.113;1795166546.0.143;1797590900.2.143;1811105522.0.110;1811944165.0.142;1814368519.2.142;1827736046.0.129;1827883141.0.111;1831146138.2.141;1844513665.0.128;1847923757.2.140;1895832260.0.149;1912609879.0.148;1945326474.0.118;1962104093.0.119;2205493472.3.120;2222271091.3.121;2239048710.3.122;2240034448.3.142;2252588368.3.49;2255826329.3.123;2255973424.3.133;2256812067.3.143;2269365987.3.48;2272603948.3.124;2272751043.3.132;2273589686.3.140;2289381567.3.125;2289528662.3.131;2290367305.3.141;2306159186.3.126;2306306281.3.130;2306453376.3.106;2307144924.3.146;2322936805.3.127;2323083900.3.137;2323230995.3.107;2323922543.3.147;2339714424.3.128;2339861519.3.136;2340008614.3.104;2340700162.3.144;2356492043.3.129;2356639138.3.135;2356786233.3.105;2357477781.3.145;2370178796.3.38;2373416757.3.134;2373563852.3.102;2386809320.3.41;2386956415.3.39;2390341471.3.103;2403586939.3.40;2407119090.3.100;2407810638.3.148;2420364558.3.43;2423749614.3.139;2423896709.3.101;2424588257.3.149;2437142177.3.42;2437289272.3.34;2440527233.3.138;2453919796.3.45;2454066891.3.35;2454213986.3.29;2470697415.3.44;2470844510.3.36;2470991605.3.28;2487475034.3.47;2487622129.3.37;2487769224.3.27;2504252653.3.46;2504399748.3.30;2504546843.3.26;2521177367.3.31;2521324462.3.25;2537954986.3.32;2538102081.3.24;2541340042.3.108;2554732605.3.33;2554879700.3.23;2558117661.3.109;2571657319.3.22;2588434938.3.21;2605212557.3.20;2654796224.1.32;2671573843.1.33;2688351462.1.30;2689337200.1.94;2705129081.1.31;2706114819.1.95;2721906700.1.36;2722892438.1.96;2738684319.1.37;2739670057.1.97;2739817152.1.87;2755461938.1.34;2756447676.1.90;2756594771.1.86;2772239557.1.35;2773225295.1.91;2773372390.1.85;2787416896.2.86;2790002914.1.92;2790150009.1.84;2804194515.2.87;2806018896.2.77;2806780533.1.93;2806927628.1.83;2820972134.2.84;2821957872.2.28;2822572414.1.38;2822796515.2.76;2823705247.1.82;2837749753.2.85;2838735491.2.29;2839350033.1.39;2839574134.2.75;2840482866.1.81;2854527372.2.82;2856351753.2.74;2857260485.1.80;2871304991.2.83;2873129372.2.73;2888082610.2.80;2889388700.1.18;2889906991.2.72;2890054086.2.48;2890668628.1.98;2904860229.2.81;2905993062.2.39;2906166319.1.19;2906684610.2.71;2906831705.2.49;2907446247.1.99;2922770681.2.38;2923462229.2.70;2956178824.2.20;2956499176.1.14;2972956443.2.21;2973276795.1.15;2974089276.2.59;2974703818.1.89;2989734062.2.22;2990054414.1.16;2990719800.2.42;2990866895.2.58;2991481437.1.88;3006511681.2.23;3006658776.2.33;3006832033.1.17;3007497419.2.43;3022303562.2.88;3023289300.2.24;3023436395.2.32;3023609652.1.10;3024275038.2.40;3038924032.1.104;3039081181.2.89;3040066919.2.25;3040214014.2.31;3040387271.1.11;3040905562.2.79;3041052657.2.41;3041199752.2.55;3055701651.1.105;3056844538.2.26;3056991633.2.30;3057164890.1.12;3057683181.2.78;3057830276.2.46;3057977371.2.54;3072479270.1.106;3073622157.2.27;3073769252.2.37;3073942509.1.13;3074607895.2.47;3074754990.2.57;3089256889.1.107;3090546871.2.36;3091385514.2.44;3091532609.2.56;3106034508.1.100;3107324490.2.35;3108163133.2.45;3108310228.2.51;3122812127.1.101;3124102109.2.34;3125087847.2.50;3139589746.1.102;3141865466.2.53;3156367365.1.103;3158643085.2.52;3240255460.1.108;3257033079.1.109;3450354288.0.62;3467131907.0.63;3483909526.0.60;3500687145.0.61;3500834240.0.75;3517464764.0.66;3517611859.0.74;3534242383.0.67;3534389478.0.77;3541771728.2.103;3551020002.0.64;3551167097.0.76;3558549347.2.102;3567797621.0.65;3567944716.0.71;3575326966.2.101;3584722335.0.70;3592104585.2.100;3592251680.2.136;3601499954.0.73;3608882204.2.107;3609029299.2.137;3618130478.0.68;3618277573.0.72;3625659823.2.106;3625806918.2.134;3634908097.0.69;3642437442.2.105;3642584537.2.135;3642731632.2.129;3659215061.2.104;3659362156.2.132;3659509251.2.128;3676139775.2.133;3692917394.2.130;3702165668.0.79;3709547918.2.109;3709695013.2.131;3718943287.0.78;3726325537.2.108;3768981954.0.59;3776952584.2.121;3785759573.0.58;3793730203.2.120;3802537192.0.57;3810507822.2.123;3819314811.0.56;3827138346.2.138;3827285441.2.122;3836092430.0.55;3843915965.2.139;3844063060.2.125;3852870049.0.54;3860840679.2.124;3869647668.0.53;3877618298.2.127;3886425287.0.52;3894395917.2.126;3903202906.0.51;3908454992.0.109;3919980525.0.50;3925232611.0.108;3963760128.1.5;3980537747.1.4;3997315366.1.7;4014092985.1.6;4030870604.1.1;4042675944.0.101;4047648223.1.0;4059453563.0.100;4064425842.1.3;4076231182.0.103;4081203461.1.2;4093008801.0.102;4109786420.0.105;4126564039.0.104;4143341658.0.107;4160119277.0.106;4165091556.1.9;4181869175.1.8;4204861552.0.0;4221639171.0.1;4238416790.0.2;4248580576.3.70;4255194409.0.3;4265358195.3.71;4271972028.0.4;4282135814.3.72;4283121552.3.12;4288749647.0.5"

/-- Decoded ring nodes. -/
def c6RingLit : List HashRingNode :=
  (splitChars ';' c6RingData.data).map (fun e =>
    match splitChars '.' e with
    | [h, w, i] => ⟨natOfChars h, "worker-" ++ toString (natOfChars w), natOfChars i⟩
    | _ => defaultNode)

/-- Worker index assigned to each of user-0 .. user-999, in order. -/
def c6AssignedData : String := "0010000011333300033333333033000000333300300033330000000033000000003333333333333333333333333333333333111111113322211111113333333333333333331333333333333333333333333333331113111111333333333333333333331100022200000222000000000000000000000000000000000000000000000000000000220000000000111110000000000000003333333333000000002200000100113333333300110003001133330100001111201100111111110100000000333033333300000000000000000020222222000022222222201100002200222222002002000000002200000000222222220011021011112200000000000000000000000000000000220200000000220000000000001111001111000000000000000222000000000000001111111122111111111211212222112211111122111111122222212222112222111122111112112222212222221111222211111111111111111111111111111111111111111100000000002212111111111111111111111111112222112111111122111122222122111111121111111333331133333333113333333333222222221121112222111111112233333333331133333333312211112222211112221121221111111111111122222221112211111111221111111111112222222211111111221111111111"

/-- Decoded assigned worker ids. -/
def c6AssignedLit : List String :=
  c6AssignedData.data.map (fun c => "worker-" ++ toString (c.toNat - 48))

/-- Worker id found by linear ring lookup for a target hash (first node
with hash at least the target, wrapping to the first node). -/
def workerFor (ring : List HashRingNode) (t : Nat) : String :=
  ((ring.find? (fun n => t ≤ n.hash)).getD (ring.getD 0 defaultNode)).workerId

/-- Linear Boolean sortedness check for ring node lists. -/
def sortedByHash : List HashRingNode → Bool
  | [] => true
  | [_] => true
  | a :: b :: t => nodeLe a b && sortedByHash (b :: t)

/-- Fuel-driven merge of two node lists by ascending hash, taking from the
left list on ties (the stable merge of two sorted runs). -/
def mergeGo : Nat → List HashRingNode → List HashRingNode → List HashRingNode
  | 0, a, b => a ++ b
  | _ + 1, [], b => b
  | _ + 1, x :: xs, [] => x :: xs
  | fuel + 1, x :: xs, y :: ys =>
    if nodeLe x y then x :: mergeGo fuel xs (y :: ys)
    else y :: mergeGo fuel (x :: xs) ys

/-- Merge of two node lists, with fuel sufficient for both. -/
def mergeNodes (a b : List HashRingNode) : List HashRingNode :=
  mergeGo (a.length + b.length) a b

/-- Sorted virtual-node block of worker-0 (hash, worker index, virtual index). -/
def c6Block0Data : String := "10559970.0.6;27337589.0.7;44115208.0.8;60892827.0.9;1318861200.0.13;1335638819.0.12;1352416438.0.11;1369194057.0.10;1369341152.0.26;1385971676.0.17;1386118771.0.27;1402749295.0.16;1402896390.0.24;1403882128.0.88;1419526914.0.15;1419674009.0.25;1419821104.0.39;1420659747.0.89;1436304533.0.14;1436451628.0.22;1436598723.0.38;1453229247.0.23;1470006866.0.20;1486637390.0.19;1486784485.0.21;1487917318.0.99;1503415009.0.18;1504694937.0.98;1537411532.0.48;1538103080.0.80;1554042056.0.31;1554189151.0.49;1554880699.0.81;1570819675.0.30;1571658318.0.82;1587597294.0.33;1588435937.0.83;1588583032.0.93;1604227818.0.28;1604374913.0.32;1604522008.0.44;1605213556.0.84;1605360651.0.92;1609479904.0.130;1621005437.0.29;1621152532.0.35;1621299627.0.45;1621991175.0.85;1622138270.0.91;1626257523.0.131;1637930151.0.34;1638077246.0.46;1638768794.0.86;1638915889.0.90;1643035142.0.132;1654707770.0.37;1654854865.0.47;1655546413.0.87;1655693508.0.97;1659812761.0.133;1659959856.0.123;1671485389.0.36;1671632484.0.40;1672471127.0.96;1676590380.0.134;1676737475.0.122;1688410103.0.41;1689248746.0.95;1693367999.0.135;1693515094.0.121;1694500832.0.145;1705187722.0.42;1706026365.0.94;1710145618.0.136;1710292713.0.120;1710439808.0.116;1711278451.0.144;1721965341.0.43;1726923237.0.137;1727070332.0.127;1727217427.0.117;1728056070.0.147;1743700856.0.138;1743847951.0.126;1743995046.0.114;1744833689.0.146;1760478475.0.139;1760625570.0.125;1760772665.0.115;1761611308.0.141;1777403189.0.124;1777550284.0.112;1778388927.0.140;1794327903.0.113;1795166546.0.143;1811105522.0.110;1811944165.0.142;1827736046.0.129;1827883141.0.111;1844513665.0.128;1895832260.0.149;1912609879.0.148;1945326474.0.118;1962104093.0.119;3450354288.0.62;3467131907.0.63;3483909526.0.60;3500687145.0.61;3500834240.0.75;3517464764.0.66;3517611859.0.74;3534242383.0.67;3534389478.0.77;3551020002.0.64;3551167097.0.76;3567797621.0.65;3567944716.0.71;3584722335.0.70;3601499954.0.73;3618130478.0.68;3618277573.0.72;3634908097.0.69;3702165668.0.79;3718943287.0.78;3768981954.0.59;3785759573.0.58;3802537192.0.57;3819314811.0.56;3836092430.0.55;3852870049.0.54;3869647668.0.53;3886425287.0.52;3903202906.0.51;3908454992.0.109;3919980525.0.50;3925232611.0.108;4042675944.0.101;4059453563.0.100;4076231182.0.103;4093008801.0.102;4109786420.0.105;4126564039.0.104;4143341658.0.107;4160119277.0.106;4204861552.0.0;4221639171.0.1;4238416790.0.2;4255194409.0.3;4271972028.0.4;4288749647.0.5"

/-- Decoded node list of c6Block0Data. -/
def c6Block0Lit : List HashRingNode :=
  (splitChars ';' c6Block0Data.data).map (fun e =>
    match splitChars '.' e with
    | [h, w, i] => ⟨natOfChars h, "worker-" ++ toString (natOfChars w), natOfChars i⟩
    | _ => defaultNode)

/-- Sorted virtual-node block of worker-1. -/
def c6Block1Data : String := "472823184.1.50;489600803.1.51;506378422.1.52;523156041.1.53;523303136.1.43;539933660.1.54;540080755.1.42;556711279.1.55;556858374.1.41;557844112.1.25;573488898.1.56;573635993.1.40;573783088.1.76;574621731.1.24;590266517.1.57;590413612.1.47;590560707.1.77;591399350.1.27;607044136.1.58;607191231.1.46;607338326.1.74;608176969.1.26;623821755.1.59;623968850.1.45;624115945.1.75;624263040.1.69;624954588.1.21;640746469.1.44;640893564.1.72;641040659.1.68;641732207.1.20;657671183.1.73;658509826.1.23;674448802.1.70;675287445.1.22;691079326.1.49;691226421.1.71;707856945.1.48;758483992.1.61;759175540.1.29;775261611.1.60;775953159.1.28;792039230.1.63;808669754.1.78;808816849.1.62;825447373.1.79;825594468.1.65;842372087.1.64;859149706.1.67;875927325.1.66;941971920.1.117;957910896.1.148;958749539.1.116;974688515.1.149;975527158.1.115;992304777.1.114;1009082396.1.113;1025860015.1.112;1026007110.1.128;1042637634.1.111;1042784729.1.129;1059415253.1.110;1092131848.1.140;1108909467.1.141;1110042300.1.139;1125687086.1.142;1126672824.1.122;1126819919.1.138;1142464705.1.143;1143450443.1.123;1159242324.1.144;1160228062.1.120;1176019943.1.145;1176858586.1.119;1177005681.1.121;1177152776.1.135;1192797562.1.146;1193636205.1.118;1193783300.1.126;1193930395.1.134;1209575181.1.147;1210560919.1.127;1210708014.1.137;1227338538.1.124;1227485633.1.136;1244116157.1.125;1244263252.1.131;1261040871.1.130;1277818490.1.133;1294596109.1.132;2654796224.1.32;2671573843.1.33;2688351462.1.30;2689337200.1.94;2705129081.1.31;2706114819.1.95;2721906700.1.36;2722892438.1.96;2738684319.1.37;2739670057.1.97;2739817152.1.87;2755461938.1.34;2756447676.1.90;2756594771.1.86;2772239557.1.35;2773225295.1.91;2773372390.1.85;2790002914.1.92;2790150009.1.84;2806780533.1.93;2806927628.1.83;2822572414.1.38;2823705247.1.82;2839350033.1.39;2840482866.1.81;2857260485.1.80;2889388700.1.18;2890668628.1.98;2906166319.1.19;2907446247.1.99;2956499176.1.14;2973276795.1.15;2974703818.1.89;2990054414.1.16;2991481437.1.88;3006832033.1.17;3023609652.1.10;3038924032.1.104;3040387271.1.11;3055701651.1.105;3057164890.1.12;3072479270.1.106;3073942509.1.13;3089256889.1.107;3106034508.1.100;3122812127.1.101;3139589746.1.102;3156367365.1.103;3240255460.1.108;3257033079.1.109;3963760128.1.5;3980537747.1.4;3997315366.1.7;4014092985.1.6;4030870604.1.1;4047648223.1.0;4064425842.1.3;4081203461.1.2;4165091556.1.9;4181869175.1.8"

/-- Decoded node list of c6Block1Data. -/
def c6Block1Lit : List HashRingNode :=
  (splitChars ';' c6Block1Data.data).map (fun e =>
    match splitChars '.' e with
    | [h, w, i] => ⟨natOfChars h, "worker-" ++ toString (natOfChars w), natOfChars i⟩
    | _ => defaultNode)

/-- Sorted virtual-node block of worker-2. -/
def c6Block2Data : String := "557523760.2.11;574301379.2.10;591078998.2.13;607856617.2.12;608003712.2.64;624634236.2.15;624781331.2.65;641411855.2.14;641558950.2.66;658189474.2.17;658336569.2.67;674967093.2.16;675114188.2.60;690464784.2.99;691744712.2.19;691891807.2.61;707242403.2.98;708522331.2.18;708669426.2.62;725447045.2.63;744947702.2.8;761725321.2.9;809335140.2.68;824685736.2.91;826112759.2.69;841463355.2.90;845613416.2.2;858240974.2.93;862391035.2.3;875018593.2.92;879168654.2.0;891796212.2.95;895946273.2.1;908573831.2.94;912723892.2.6;925351450.2.97;929501511.2.7;942129069.2.96;946279130.2.4;963056749.2.5;1343756544.2.110;1360534163.2.111;1377311782.2.112;1394089401.2.113;1410867020.2.114;1427644639.2.115;1444422258.2.116;1461199877.2.117;1477977496.2.118;1494755115.2.119;1696925186.2.149;1713702805.2.148;1730480424.2.147;1747258043.2.146;1764035662.2.145;1780813281.2.144;1797590900.2.143;1814368519.2.142;1831146138.2.141;1847923757.2.140;2787416896.2.86;2804194515.2.87;2806018896.2.77;2820972134.2.84;2821957872.2.28;2822796515.2.76;2837749753.2.85;2838735491.2.29;2839574134.2.75;2854527372.2.82;2856351753.2.74;2871304991.2.83;2873129372.2.73;2888082610.2.80;2889906991.2.72;2890054086.2.48;2904860229.2.81;2905993062.2.39;2906684610.2.71;2906831705.2.49;2922770681.2.38;2923462229.2.70;2956178824.2.20;2972956443.2.21;2974089276.2.59;2989734062.2.22;2990719800.2.42;2990866895.2.58;3006511681.2.23;3006658776.2.33;3007497419.2.43;3022303562.2.88;3023289300.2.24;3023436395.2.32;3024275038.2.40;3039081181.2.89;3040066919.2.25;3040214014.2.31;3040905562.2.79;3041052657.2.41;3041199752.2.55;3056844538.2.26;3056991633.2.30;3057683181.2.78;3057830276.2.46;3057977371.2.54;3073622157.2.27;3073769252.2.37;3074607895.2.47;3074754990.2.57;3090546871.2.36;3091385514.2.44;3091532609.2.56;3107324490.2.35;3108163133.2.45;3108310228.2.51;3124102109.2.34;3125087847.2.50;3141865466.2.53;3158643085.2.52;3541771728.2.103;3558549347.2.102;3575326966.2.101;3592104585.2.100;3592251680.2.136;3608882204.2.107;3609029299.2.137;3625659823.2.106;3625806918.2.134;3642437442.2.105;3642584537.2.135;3642731632.2.129;3659215061.2.104;3659362156.2.132;3659509251.2.128;3676139775.2.133;3692917394.2.130;3709547918.2.109;3709695013.2.131;3726325537.2.108;3776952584.2.121;3793730203.2.120;3810507822.2.123;3827138346.2.138;3827285441.2.122;3843915965.2.139;3844063060.2.125;3860840679.2.124;3877618298.2.127;3894395917.2.126"

/-- Decoded node list of c6Block2Data. -/
def c6Block2Lit : List HashRingNode :=
  (splitChars ';' c6Block2Data.data).map (fun e =>
    match splitChars '.' e with
    | [h, w, i] => ⟨natOfChars h, "worker-" ++ toString (natOfChars w), natOfChars i⟩
    | _ => defaultNode)

/-- Sorted virtual-node block of worker-3. -/
def c6Block3Data : String := "3946137.3.73;4093232.3.63;4931875.3.13;20723756.3.74;20870851.3.62;21709494.3.10;37501375.3.75;37648470.3.61;38487113.3.11;54278994.3.76;54426089.3.60;54573184.3.56;55264732.3.16;71056613.3.77;71203708.3.67;71350803.3.57;72042351.3.17;87834232.3.78;87981327.3.66;88128422.3.54;88819970.3.14;104611851.3.79;104758946.3.65;104906041.3.55;105597589.3.15;121536565.3.64;121683660.3.52;138461279.3.53;155238898.3.50;155930446.3.18;157210374.3.98;171869422.3.69;172016517.3.51;172708065.3.19;173987993.3.99;188647041.3.68;209501264.3.119;226278883.3.118;241245564.3.89;257876088.3.92;258023183.3.88;274653707.3.93;289459850.3.58;291431326.3.90;306237469.3.59;308208945.3.91;308356040.3.85;324986564.3.96;325133659.3.84;341764183.3.97;341911278.3.87;343722216.3.111;355578512.3.7;358541802.3.94;358688897.3.86;360499835.3.110;372356131.3.6;375319421.3.95;375466516.3.81;377277454.3.113;389133750.3.5;392244135.3.80;394055073.3.112;405911369.3.4;409021754.3.83;410832692.3.115;422688988.3.3;425799373.3.82;427610311.3.114;439466607.3.2;444387930.3.117;456244226.3.1;461165549.3.116;473021845.3.0;590465178.3.9;607242797.3.8;2205493472.3.120;2222271091.3.121;2239048710.3.122;2240034448.3.142;2252588368.3.49;2255826329.3.123;2255973424.3.133;2256812067.3.143;2269365987.3.48;2272603948.3.124;2272751043.3.132;2273589686.3.140;2289381567.3.125;2289528662.3.131;2290367305.3.141;2306159186.3.126;2306306281.3.130;2306453376.3.106;2307144924.3.146;2322936805.3.127;2323083900.3.137;2323230995.3.107;2323922543.3.147;2339714424.3.128;2339861519.3.136;2340008614.3.104;2340700162.3.144;2356492043.3.129;2356639138.3.135;2356786233.3.105;2357477781.3.145;2370178796.3.38;2373416757.3.134;2373563852.3.102;2386809320.3.41;2386956415.3.39;2390341471.3.103;2403586939.3.40;2407119090.3.100;2407810638.3.148;2420364558.3.43;2423749614.3.139;2423896709.3.101;2424588257.3.149;2437142177.3.42;2437289272.3.34;2440527233.3.138;2453919796.3.45;2454066891.3.35;2454213986.3.29;2470697415.3.44;2470844510.3.36;2470991605.3.28;2487475034.3.47;2487622129.3.37;2487769224.3.27;2504252653.3.46;2504399748.3.30;2504546843.3.26;2521177367.3.31;2521324462.3.25;2537954986.3.32;2538102081.3.24;2541340042.3.108;2554732605.3.33;2554879700.3.23;2558117661.3.109;2571657319.3.22;2588434938.3.21;2605212557.3.20;4248580576.3.70;4265358195.3.71;4282135814.3.72;4283121552.3.12"

/-- Decoded node list of c6Block3Data. -/
def c6Block3Lit : List HashRingNode :=
  (splitChars ';' c6Block3Data.data).map (fun e =>
    match splitChars '.' e with
    | [h, w, i] => ⟨natOfChars h, "worker-" ++ toString (natOfChars w), natOfChars i⟩
    | _ => defaultNode)

/-- Merged sorted blocks of worker-2 and worker-3. -/
def c6Merge23Data : String := "3946137.3.73;4093232.3.63;4931875.3.13;20723756.3.74;20870851.3.62;21709494.3.10;37501375.3.75;37648470.3.61;38487113.3.11;54278994.3.76;54426089.3.60;54573184.3.56;55264732.3.16;71056613.3.77;71203708.3.67;71350803.3.57;72042351.3.17;87834232.3.78;87981327.3.66;88128422.3.54;88819970.3.14;104611851.3.79;104758946.3.65;104906041.3.55;105597589.3.15;121536565.3.64;121683660.3.52;138461279.3.53;155238898.3.50;155930446.3.18;157210374.3.98;171869422.3.69;172016517.3.51;172708065.3.19;173987993.3.99;188647041.3.68;209501264.3.119;226278883.3.118;241245564.3.89;257876088.3.92;258023183.3.88;274653707.3.93;289459850.3.58;291431326.3.90;306237469.3.59;308208945.3.91;308356040.3.85;324986564.3.96;325133659.3.84;341764183.3.97;341911278.3.87;343722216.3.111;355578512.3.7;358541802.3.94;358688897.3.86;360499835.3.110;372356131.3.6;375319421.3.95;375466516.3.81;377277454.3.113;389133750.3.5;392244135.3.80;394055073.3.112;405911369.3.4;409021754.3.83;410832692.3.115;422688988.3.3;425799373.3.82;427610311.3.114;439466607.3.2;444387930.3.117;456244226.3.1;461165549.3.116;473021845.3.0;557523760.2.11;574301379.2.10;590465178.3.9;591078998.2.13;607242797.3.8;607856617.2.12;608003712.2.64;624634236.2.15;624781331.2.65;641411855.2.14;641558950.2.66;658189474.2.17;658336569.2.67;674967093.2.16;675114188.2.60;690464784.2.99;691744712.2.19;691891807.2.61;707242403.2.98;708522331.2.18;708669426.2.62;725447045.2.63;744947702.2.8;761725321.2.9;809335140.2.68;824685736.2.91;826112759.2.69;841463355.2.90;845613416.2.2;858240974.2.93;862391035.2.3;875018593.2.92;879168654.2.0;891796212.2.95;895946273.2.1;908573831.2.94;912723892.2.6;925351450.2.97;929501511.2.7;942129069.2.96;946279130.2.4;963056749.2.5;1343756544.2.110;1360534163.2.111;1377311782.2.112;1394089401.2.113;1410867020.2.114;1427644639.2.115;1444422258.2.116;1461199877.2.117;1477977496.2.118;1494755115.2.119;1696925186.2.149;1713702805.2.148;1730480424.2.147;1747258043.2.146;1764035662.2.145;1780813281.2.144;1797590900.2.143;1814368519.2.142;1831146138.2.141;1847923757.2.140;2205493472.3.120;2222271091.3.121;2239048710.3.122;2240034448.3.142;2252588368.3.49;2255826329.3.123;2255973424.3.133;2256812067.3.143;2269365987.3.48;2272603948.3.124;2272751043.3.132;2273589686.3.140;2289381567.3.125;2289528662.3.131;2290367305.3.141;2306159186.3.126;2306306281.3.130;2306453376.3.106;2307144924.3.146;2322936805.3.127;2323083900.3.137;2323230995.3.107;2323922543.3.147;2339714424.3.128;2339861519.3.136;2340008614.3.104;2340700162.3.144;2356492043.3.129;2356639138.3.135;2356786233.3.105;2357477781.3.145;2370178796.3.38;2373416757.3.134;2373563852.3.102;2386809320.3.41;2386956415.3.39;2390341471.3.103;2403586939.3.40;2407119090.3.100;2407810638.3.148;2420364558.3.43;2423749614.3.139;2423896709.3.101;2424588257.3.149;2437142177.3.42;2437289272.3.34;2440527233.3.138;2453919796.3.45;2454066891.3.35;2454213986.3.29;2470697415.3.44;2470844510.3.36;2470991605.3.28;2487475034.3.47;2487622129.3.37;2487769224.3.27;2504252653.3.46;2504399748.3.30;2504546843.3.26;2521177367.3.31;2521324462.3.25;2537954986.3.32;2538102081.3.24;2541340042.3.108;2554732605.3.33;2554879700.3.23;2558117661.3.109;2571657319.3.22;2588434938.3.21;2605212557.3.20;2787416896.2.86;2804194515.2.87;2806018896.2.77;2820972134.2.84;2821957872.2.28;2822796515.2.76;2837749753.2.85;2838735491.2.29;2839574134.2.75;2854527372.2.82;2856351753.2.74;2871304991.2.83;2873129372.2.73;2888082610.2.80;2889906991.2.72;2890054086.2.48;2904860229.2.81;2905993062.2.39;2906684610.2.71;2906831705.2.49;2922770681.2.38;2923462229.2.70;2956178824.2.20;2972956443.2.21;2974089276.2.59;2989734062.2.22;2990719800.2.42;2990866895.2.58;3006511681.2.23;3006658776.2.33;3007497419.2.43;3022303562.2.88;3023289300.2.24;3023436395.2.32;3024275038.2.40;3039081181.2.89;3040066919.2.25;3040214014.2.31;3040905562.2.79;3041052657.2.41;3041199752.2.55;3056844538.2.26;3056991633.2.30;3057683181.2.78;3057830276.2.46;3057977371.2.54;3073622157.2.27;3073769252.2.37;3074607895.2.47;3074754990.2.57;3090546871.2.36;3091385514.2.44;3091532609.2.56;3107324490.2.35;3108163133.2.45;3108310228.2.51;3124102109.2.34;3125087847.2.50;3141865466.2.53;3158643085.2.52;3541771728.2.103;3558549347.2.102;3575326966.2.101;3592104585.2.100;3592251680.2.136;3608882204.2.107;3609029299.2.137;3625659823.2.106;3625806918.2.134;3642437442.2.105;3642584537.2.135;3642731632.2.129;3659215061.2.104;3659362156.2.132;3659509251.2.128;3676139775.2.133;3692917394.2.130;3709547918.2.109;3709695013.2.131;3726325537.2.108;3776952584.2.121;3793730203.2.120;3810507822.2.123;3827138346.2.138;3827285441.2.122;3843915965.2.139;3844063060.2.125;3860840679.2.124;3877618298.2.127;3894395917.2.126;4248580576.3.70;4265358195.3.71;4282135814.3.72;4283121552.3.12"

/-- Decoded node list of c6Merge23Data. -/
def c6Merge23Lit : List HashRingNode :=
  (splitChars ';' c6Merge23Data.data).map (fun e =>
    match splitChars '.' e with
    | [h, w, i] => ⟨natOfChars h, "worker-" ++ toString (natOfChars w), natOfChars i⟩
    | _ => defaultNode)

/-- Merged sorted blocks of worker-1, worker-2 and worker-3. -/
def c6Merge123Data : String := "3946137.3.73;4093232.3.63;4931875.3.13;20723756.3.74;20870851.3.62;21709494.3.10;37501375.3.75;37648470.3.61;38487113.3.11;54278994.3.76;54426089.3.60;54573184.3.56;55264732.3.16;71056613.3.77;71203708.3.67;71350803.3.57;72042351.3.17;87834232.3.78;87981327.3.66;88128422.3.54;88819970.3.14;104611851.3.79;104758946.3.65;104906041.3.55;105597589.3.15;121536565.3.64;121683660.3.52;138461279.3.53;155238898.3.50;155930446.3.18;157210374.3.98;171869422.3.69;172016517.3.51;172708065.3.19;173987993.3.99;188647041.3.68;209501264.3.119;226278883.3.118;241245564.3.89;257876088.3.92;258023183.3.88;274653707.3.93;289459850.3.58;291431326.3.90;306237469.3.59;308208945.3.91;308356040.3.85;324986564.3.96;325133659.3.84;341764183.3.97;341911278.3.87;343722216.3.111;355578512.3.7;358541802.3.94;358688897.3.86;360499835.3.110;372356131.3.6;375319421.3.95;375466516.3.81;377277454.3.113;389133750.3.5;392244135.3.80;394055073.3.112;405911369.3.4;409021754.3.83;410832692.3.115;422688988.3.3;425799373.3.82;427610311.3.114;439466607.3.2;444387930.3.117;456244226.3.1;461165549.3.116;472823184.1.50;473021845.3.0;489600803.1.51;506378422.1.52;523156041.1.53;523303136.1.43;539933660.1.54;540080755.1.42;556711279.1.55;556858374.1.41;557523760.2.11;557844112.1.25;573488898.1.56;573635993.1.40;573783088.1.76;574301379.2.10;574621731.1.24;590266517.1.57;590413612.1.47;590465178.3.9;590560707.1.77;591078998.2.13;591399350.1.27;607044136.1.58;607191231.1.46;607242797.3.8;607338326.1.74;607856617.2.12;608003712.2.64;608176969.1.26;623821755.1.59;623968850.1.45;624115945.1.75;624263040.1.69;624634236.2.15;624781331.2.65;624954588.1.21;640746469.1.44;640893564.1.72;641040659.1.68;641411855.2.14;641558950.2.66;641732207.1.20;657671183.1.73;658189474.2.17;658336569.2.67;658509826.1.23;674448802.1.70;674967093.2.16;675114188.2.60;675287445.1.22;690464784.2.99;691079326.1.49;691226421.1.71;691744712.2.19;691891807.2.61;707242403.2.98;707856945.1.48;708522331.2.18;708669426.2.62;725447045.2.63;744947702.2.8;758483992.1.61;759175540.1.29;761725321.2.9;775261611.1.60;775953159.1.28;792039230.1.63;808669754.1.78;808816849.1.62;809335140.2.68;824685736.2.91;825447373.1.79;825594468.1.65;826112759.2.69;841463355.2.90;842372087.1.64;845613416.2.2;858240974.2.93;859149706.1.67;862391035.2.3;875018593.2.92;875927325.1.66;879168654.2.0;891796212.2.95;895946273.2.1;908573831.2.94;912723892.2.6;925351450.2.97;929501511.2.7;941971920.1.117;942129069.2.96;946279130.2.4;957910896.1.148;958749539.1.116;963056749.2.5;974688515.1.149;975527158.1.115;992304777.1.114;1009082396.1.113;1025860015.1.112;1026007110.1.128;1042637634.1.111;1042784729.1.129;1059415253.1.110;1092131848.1.140;1108909467.1.141;1110042300.1.139;1125687086.1.142;1126672824.1.122;1126819919.1.138;1142464705.1.143;1143450443.1.123;1159242324.1.144;1160228062.1.120;1176019943.1.145;1176858586.1.119;1177005681.1.121;1177152776.1.135;1192797562.1.146;1193636205.1.118;1193783300.1.126;1193930395.1.134;1209575181.1.147;1210560919.1.127;1210708014.1.137;1227338538.1.124;1227485633.1.136;1244116157.1.125;1244263252.1.131;1261040871.1.130;1277818490.1.133;1294596109.1.132;1343756544.2.110;1360534163.2.111;1377311782.2.112;1394089401.2.113;1410867020.2.114;1427644639.2.115;1444422258.2.116;1461199877.2.117;1477977496.2.118;1494755115.2.119;1696925186.2.149;1713702805.2.148;1730480424.2.147;1747258043.2.146;1764035662.2.145;1780813281.2.144;1797590900.2.143;1814368519.2.142;1831146138.2.141;1847923757.2.140;2205493472.3.120;2222271091.3.121;2239048710.3.122;2240034448.3.142;2252588368.3.49;2255826329.3.123;2255973424.3.133;2256812067.3.143;2269365987.3.48;2272603948.3.124;2272751043.3.132;2273589686.3.140;2289381567.3.125;2289528662.3.131;2290367305.3.141;2306159186.3.126;2306306281.3.130;2306453376.3.106;2307144924.3.146;2322936805.3.127;2323083900.3.137;2323230995.3.107;2323922543.3.147;2339714424.3.128;2339861519.3.136;2340008614.3.104;2340700162.3.144;2356492043.3.129;2356639138.3.135;2356786233.3.105;2357477781.3.145;2370178796.3.38;2373416757.3.134;2373563852.3.102;2386809320.3.41;2386956415.3.39;2390341471.3.103;2403586939.3.40;2407119090.3.100;2407810638.3.148;2420364558.3.43;2423749614.3.139;2423896709.3.101;2424588257.3.149;2437142177.3.42;2437289272.3.34;2440527233.3.138;2453919796.3.45;2454066891.3.35;2454213986.3.29;2470697415.3.44;2470844510.3.36;2470991605.3.28;2487475034.3.47;2487622129.3.37;2487769224.3.27;2504252653.3.46;2504399748.3.30;2504546843.3.26;2521177367.3.31;2521324462.3.25;2537954986.3.32;2538102081.3.24;2541340042.3.108;2554732605.3.33;2554879700.3.23;2558117661.3.109;2571657319.3.22;2588434938.3.21;2605212557.3.20;2654796224.1.32;2671573843.1.33;2688351462.1.30;2689337200.1.94;2705129081.1.31;2706114819.1.95;2721906700.1.36;2722892438.1.96;2738684319.1.37;2739670057.1.97;2739817152.1.87;2755461938.1.34;2756447676.1.90;2756594771.1.86;2772239557.1.35;2773225295.1.91;2773372390.1.85;2787416896.2.86;2790002914.1.92;2790150009.1.84;2804194515.2.87;2806018896.2.77;2806780533.1.93;2806927628.1.83;2820972134.2.84;2821957872.2.28;2822572414.1.38;2822796515.2.76;2823705247.1.82;2837749753.2.85;2838735491.2.29;2839350033.1.39;2839574134.2.75;2840482866.1.81;2854527372.2.82;2856351753.2.74;2857260485.1.80;2871304991.2.83;2873129372.2.73;2888082610.2.80;2889388700.1.18;2889906991.2.72;2890054086.2.48;2890668628.1.98;2904860229.2.81;2905993062.2.39;2906166319.1.19;2906684610.2.71;2906831705.2.49;2907446247.1.99;2922770681.2.38;2923462229.2.70;2956178824.2.20;2956499176.1.14;2972956443.2.21;2973276795.1.15;2974089276.2.59;2974703818.1.89;2989734062.2.22;2990054414.1.16;2990719800.2.42;2990866895.2.58;2991481437.1.88;3006511681.2.23;3006658776.2.33;3006832033.1.17;3007497419.2.43;3022303562.2.88;3023289300.2.24;3023436395.2.32;3023609652.1.10;3024275038.2.40;3038924032.1.104;3039081181.2.89;3040066919.2.25;3040214014.2.31;3040387271.1.11;3040905562.2.79;3041052657.2.41;3041199752.2.55;3055701651.1.105;3056844538.2.26;3056991633.2.30;3057164890.1.12;3057683181.2.78;3057830276.2.46;3057977371.2.54;3072479270.1.106;3073622157.2.27;3073769252.2.37;3073942509.1.13;3074607895.2.47;3074754990.2.57;3089256889.1.107;3090546871.2.36;3091385514.2.44;3091532609.2.56;3106034508.1.100;3107324490.2.35;3108163133.2.45;3108310228.2.51;3122812127.1.101;3124102109.2.34;3125087847.2.50;3139589746.1.102;3141865466.2.53;3156367365.1.103;3158643085.2.52;3240255460.1.108;3257033079.1.109;3541771728.2.103;3558549347.2.102;3575326966.2.101;3592104585.2.100;3592251680.2.136;3608882204.2.107;3609029299.2.137;3625659823.2.106;3625806918.2.134;3642437442.2.105;3642584537.2.135;3642731632.2.129;3659215061.2.104;3659362156.2.132;3659509251.2.128;3676139775.2.133;3692917394.2.130;3709547918.2.109;3709695013.2.131;3726325537.2.108;3776952584.2.121;3793730203.2.120;3810507822.2.123;3827138346.2.138;3827285441.2.122;3843915965.2.139;3844063060.2.125;3860840679.2.124;3877618298.2.127;3894395917.2.126;3963760128.1.5;3980537747.1.4;3997315366.1.7;4014092985.1.6;4030870604.1.1;4047648223.1.0;4064425842.1.3;4081203461.1.2;4165091556.1.9;4181869175.1.8;4248580576.3.70;4265358195.3.71;4282135814.3.72;4283121552.3.12"

/-- Decoded node list of c6Merge123Data. -/
def c6Merge123Lit : List HashRingNode :=
  (splitChars ';' c6Merge123Data.data).map (fun e =>
    match splitChars '.' e with
    | [h, w, i] => ⟨natOfChars h, "worker-" ++ toString (natOfChars w), natOfChars i⟩
    | _ => defaultNode)

/-! # Theorems

## Stable sorting of ring nodes -/

/-- Sortedness of a node list: ascending hashes. -/
abbrev NodeSorted (l : List HashRingNode) : Prop :=
  l.Pairwise (fun a b => nodeLe a b = true)

theorem insertNode_perm (a : HashRingNode) (l : List HashRingNode) :
    List.Perm (insertNode a l) (a :: l) := by
  induction l with
  | nil => simp [insertNode]
  | cons b t ih =>
    by_cases h : nodeLe a b
    · simp [insertNode, h]
    · simp only [insertNode, h, Bool.false_eq_true, if_false]
      exact (ih.cons b).trans (List.Perm.swap a b t)

theorem sortNodes_perm (l : List HashRingNode) : List.Perm (sortNodes l) l := by
  induction l with
  | nil => simp [sortNodes]
  | cons a t ih => exact (insertNode_perm a (sortNodes t)).trans (ih.cons a)

theorem mem_insertNode {x a : HashRingNode} {l : List HashRingNode} :
    x ∈ insertNode a l ↔ x = a ∨ x ∈ l := by
  rw [(insertNode_perm a l).mem_iff]; simp

theorem mem_sortNodes {x : HashRingNode} {l : List HashRingNode} :
    x ∈ sortNodes l ↔ x ∈ l :=
  (sortNodes_perm l).mem_iff

theorem insertNode_sorted {a : HashRingNode} {l : List HashRingNode}
    (hl : NodeSorted l) : NodeSorted (insertNode a l) := by
  induction l with
  | nil => simp [insertNode, NodeSorted]
  | cons b t ih =>
    rcases List.pairwise_cons.mp hl with ⟨hb, ht⟩
    by_cases h : nodeLe a b
    · simp only [insertNode, h, if_true]
      refine List.pairwise_cons.mpr ⟨?_, hl⟩
      intro y hy
      rcases List.mem_cons.mp hy with rfl | hy
      · exact h
      · have hby := hb y hy
        simp only [nodeLe, decide_eq_true_eq] at h hby ⊢
        omega
    · simp only [insertNode, h, Bool.false_eq_true, if_false]
      refine List.pairwise_cons.mpr ⟨?_, ih ht⟩
      intro y hy
      rcases mem_insertNode.mp hy with rfl | hy
      · simp only [nodeLe, decide_eq_true_eq] at h ⊢
        omega
      · exact hb y hy

theorem sortNodes_sorted (l : List HashRingNode) : NodeSorted (sortNodes l) := by
  induction l with
  | nil => simp [sortNodes, NodeSorted]
  | cons a t ih => exact insertNode_sorted ih

/-- Filter of a node list by an exact hash value. -/
def hashFilter (h : Nat) (l : List HashRingNode) : List HashRingNode :=
  l.filter (fun n => n.hash == h)

theorem hashFilter_cons (h : Nat) (a : HashRingNode) (l : List HashRingNode) :
    hashFilter h (a :: l) =
      if a.hash == h then a :: hashFilter h l else hashFilter h l := by
  by_cases ha : a.hash == h
  · simp [hashFilter, List.filter_cons, ha]
  · simp [hashFilter, List.filter_cons, ha]

theorem hashFilter_insertNode (h : Nat) (a : HashRingNode) (l : List HashRingNode) :
    hashFilter h (insertNode a l) =
      if a.hash == h then a :: hashFilter h l else hashFilter h l := by
  induction l with
  | nil => exact hashFilter_cons h a []
  | cons b t ih =>
    by_cases hab : nodeLe a b
    · simp only [insertNode, hab, if_true]
      rw [hashFilter_cons]
    · have hba : b.hash < a.hash := by
        simp only [nodeLe, decide_eq_true_eq] at hab; omega
      simp only [insertNode, hab, Bool.false_eq_true, if_false]
      rw [hashFilter_cons, ih, hashFilter_cons]
      by_cases ha : a.hash == h
      · have hb : (b.hash == h) = false := by
          simp only [beq_iff_eq] at ha ⊢
          simp only [beq_eq_false_iff_ne, ne_eq]
          omega
        simp [ha, hb]
      · by_cases hb : b.hash == h
        · simp [ha, hb]
        · simp [ha, hb]

theorem hashFilter_sortNodes (h : Nat) (l : List HashRingNode) :
    hashFilter h (sortNodes l) = hashFilter h l := by
  induction l with
  | nil => rfl
  | cons a t ih =>
    show hashFilter h (insertNode a (sortNodes t)) = hashFilter h (a :: t)
    rw [hashFilter_insertNode, ih, hashFilter_cons]

/-- Uniqueness of stable sorting: two sorted node lists with the same
per-hash sublists are equal. -/
theorem sorted_eq_of_hashFilter_eq :
    ∀ {l₁ l₂ : List HashRingNode}, NodeSorted l₁ → NodeSorted l₂ →
      (∀ h, hashFilter h l₁ = hashFilter h l₂) → l₁ = l₂
  | [], [], _, _, _ => rfl
  | [], b :: t₂, _, _, hf => by
    have h := hf b.hash
    rw [hashFilter_cons] at h
    simp [hashFilter] at h
  | a :: t₁, [], _, _, hf => by
    have h := hf a.hash
    rw [hashFilter_cons] at h
    simp [hashFilter] at h
  | a :: t₁, b :: t₂, h₁, h₂, hf => by
    rcases List.pairwise_cons.mp h₁ with ⟨ha, ht₁⟩
    rcases List.pairwise_cons.mp h₂ with ⟨hb, ht₂⟩
    have hba : b.hash ≤ a.hash := by
      have h := hf a.hash
      have hmem : a ∈ hashFilter a.hash (b :: t₂) := by
        rw [← h, hashFilter_cons]
        simp
      have hmem2 : a ∈ b :: t₂ := List.mem_of_mem_filter hmem
      rcases List.mem_cons.mp hmem2 with rfl | hmem3
      · exact le_refl _
      · have := hb a hmem3
        simp only [nodeLe, decide_eq_true_eq] at this
        exact this
    have hab : a.hash ≤ b.hash := by
      have h := hf b.hash
      have hmem : b ∈ hashFilter b.hash (a :: t₁) := by
        rw [h, hashFilter_cons]
        simp
      have hmem2 : b ∈ a :: t₁ := List.mem_of_mem_filter hmem
      rcases List.mem_cons.mp hmem2 with rfl | hmem3
      · exact le_refl _
      · have := ha b hmem3
        simp only [nodeLe, decide_eq_true_eq] at this
        exact this
    have hhash : a.hash = b.hash := le_antisymm hab hba
    have hmain := hf a.hash
    rw [hashFilter_cons, hashFilter_cons] at hmain
    rw [if_pos (by simp), if_pos (by simp [hhash.symm])] at hmain
    simp only [List.cons.injEq] at hmain
    obtain ⟨rfl, htail⟩ := hmain
    have hf2 : ∀ hh, hashFilter hh t₁ = hashFilter hh t₂ := by
      intro hh
      by_cases hcase : a.hash = hh
      · subst hcase; exact htail
      · have h := hf hh
        have hpred : (a.hash == hh) = false := by simpa using hcase
        rw [hashFilter_cons, hashFilter_cons, if_neg (by simp [hpred]),
          if_neg (by simp [hpred])] at h
        exact h
    rw [sorted_eq_of_hashFilter_eq ht₁ ht₂ hf2]

theorem hashFilter_append (h : Nat) (l₁ l₂ : List HashRingNode) :
    hashFilter h (l₁ ++ l₂) = hashFilter h l₁ ++ hashFilter h l₂ := by
  simp [hashFilter, List.filter_append]

/-- Re-sorting a list whose front part is already sorted gives the same
result as sorting the unsorted concatenation; this is exactly stability of
the source's incremental `push`-then-`sort` ring maintenance. -/
theorem sortNodes_sortNodes_append (x y : List HashRingNode) :
    sortNodes (sortNodes x ++ y) = sortNodes (x ++ y) := by
  refine sorted_eq_of_hashFilter_eq (sortNodes_sorted _) (sortNodes_sorted _) ?_
  intro h
  rw [hashFilter_sortNodes, hashFilter_sortNodes, hashFilter_append,
    hashFilter_append, hashFilter_sortNodes]

/-- Filtering commutes with the stable sort. -/
theorem filter_sortNodes (p : HashRingNode → Bool) (l : List HashRingNode) :
    (sortNodes l).filter p = sortNodes (l.filter p) := by
  refine sorted_eq_of_hashFilter_eq
    (List.Pairwise.sublist (List.filter_sublist _) (sortNodes_sorted l))
    (sortNodes_sorted _) ?_
  intro h
  have comm : ∀ (x : List HashRingNode),
      hashFilter h (x.filter p) = (hashFilter h x).filter p := by
    intro x
    rw [hashFilter, hashFilter, List.filter_filter, List.filter_filter]
    exact List.filter_congr (fun a _ => Bool.and_comm _ _)
  rw [comm, hashFilter_sortNodes, hashFilter_sortNodes, comm]

/-! ## Correctness of the binary search -/

theorem findNodeGo_bounds (ring : List HashRingNode) (t : Nat) :
    ∀ (fuel l r : Nat), l ≤ r →
      l ≤ findNodeGo ring t fuel l r ∧ findNodeGo ring t fuel l r ≤ r := by
  intro fuel
  induction fuel with
  | zero => intro l r h; simp [findNodeGo]; omega
  | succ fuel ih =>
    intro l r h
    simp only [findNodeGo]
    by_cases hlr : l < r
    · simp only [hlr, if_true]
      by_cases hmid : (ring.getD ((l + r) / 2) defaultNode).hash < t
      · simp only [hmid, if_true]
        have := ih ((l + r) / 2 + 1) r (by omega)
        omega
      · simp only [hmid, if_false]
        have := ih l ((l + r) / 2) (by omega)
        omega
    · simp only [hlr, if_false]
      omega

/-- Loop invariant of the binary search: the value at `r` is `≥ t`, and
everything strictly left of `l` is `< t`; the returned index keeps both. -/
theorem findNodeGo_spec (ring : List HashRingNode) (t : Nat) :
    ∀ (fuel l r : Nat), l ≤ r → r - l ≤ fuel →
      t ≤ (ring.getD r defaultNode).hash →
      (l = 0 ∨ (ring.getD (l - 1) defaultNode).hash < t) →
      t ≤ (ring.getD (findNodeGo ring t fuel l r) defaultNode).hash ∧
        (findNodeGo ring t fuel l r = 0 ∨
          (ring.getD (findNodeGo ring t fuel l r - 1) defaultNode).hash < t) := by
  intro fuel
  induction fuel with
  | zero =>
    intro l r hlr hfuel hr hl
    have : l = r := by omega
    subst this
    exact ⟨hr, hl⟩
  | succ fuel ih =>
    intro l r hlr hfuel hr hl
    simp only [findNodeGo]
    by_cases h : l < r
    · simp only [h, if_true]
      by_cases hmid : (ring.getD ((l + r) / 2) defaultNode).hash < t
      · simp only [hmid, if_true]
        refine ih ((l + r) / 2 + 1) r (by omega) (by omega) hr ?_
        right
        simpa using hmid
      · simp only [hmid, if_false]
        refine ih l ((l + r) / 2) (by omega) (by omega) (by omega) hl
    · simp only [h, if_false]
      have : l = r := by omega
      subst this
      exact ⟨hr, hl⟩

theorem sorted_getD_mono {ring : List HashRingNode} (hs : NodeSorted ring)
    {i j : Nat} (hij : i ≤ j) (hj : j < ring.length) :
    (ring.getD i defaultNode).hash ≤ (ring.getD j defaultNode).hash := by
  rcases Nat.eq_or_lt_of_le hij with rfl | hlt
  · exact le_refl _
  · have hi : i < ring.length := lt_trans hlt hj
    have := (List.pairwise_iff_getElem.mp hs) i j hi hj hlt
    simp only [nodeLe, decide_eq_true_eq] at this
    rw [List.getD_eq_getElem?_getD, List.getD_eq_getElem?_getD,
      List.getElem?_eq_getElem hi, List.getElem?_eq_getElem hj]
    exact this

theorem getD_mem_of_lt {ring : List HashRingNode} {i : Nat} (h : i < ring.length) :
    ring.getD i defaultNode ∈ ring := by
  rw [List.getD_eq_getElem?_getD, List.getElem?_eq_getElem h]
  exact List.getElem_mem h

/-- Linear characterization of the first index with hash at least the
target, on a sorted ring. -/
theorem find?_eq_of_first {ring : List HashRingNode} {t i : Nat}
    (hs : NodeSorted ring) (hi : i < ring.length)
    (hti : t ≤ (ring.getD i defaultNode).hash)
    (hfirst : i = 0 ∨ (ring.getD (i - 1) defaultNode).hash < t) :
    ring.find? (fun n => t ≤ n.hash) = some (ring.getD i defaultNode) := by
  induction ring generalizing i with
  | nil => simp at hi
  | cons x rest ih =>
    rcases Nat.eq_zero_or_pos i with rfl | hpos
    · simp only [List.getD_cons_zero] at hti
      rw [List.find?_cons_of_pos _ (by simpa using hti)]
      simp
    · obtain ⟨j, rfl⟩ : ∃ j, i = j + 1 := ⟨i - 1, by omega⟩
      have hxj : (x :: rest).getD ((j + 1) - 1) defaultNode = (x :: rest).getD j defaultNode := rfl
      have hjlt : ((x :: rest).getD j defaultNode).hash < t := by
        rcases hfirst with h0 | hlt
        · omega
        · exact hlt
      have hx : x.hash < t := by
        have hmono : ((x :: rest).getD 0 defaultNode).hash ≤
            ((x :: rest).getD j defaultNode).hash :=
          sorted_getD_mono hs (Nat.zero_le j) (by simp at hi ⊢; omega)
        simp only [List.getD_cons_zero] at hmono
        omega
      rw [List.find?_cons_of_neg _ (by simpa using hx)]
      have hs2 : NodeSorted rest := (List.pairwise_cons.mp hs).2
      have hi2 : j < rest.length := by simp at hi; omega
      refine ih hs2 hi2 (by simpa using hti) ?_
      rcases Nat.eq_zero_or_pos j with rfl | hjpos
      · exact Or.inl rfl
      · right
        obtain ⟨k, rfl⟩ : ∃ k, j = k + 1 := ⟨j - 1, by omega⟩
        simpa using hjlt

/-- On a sorted ring, the source's binary search agrees with the linear
first-match lookup (with wrap-around to the first node). -/
theorem findNode_eq_findFirst {ring : List HashRingNode} (hs : NodeSorted ring)
    (t : Nat) : findNode ring t = findFirstNode ring t := by
  match ring with
  | [] => rfl
  | x :: rest =>
    simp only [findNode, findFirstNode]
    by_cases hlast : ((x :: rest).getD ((x :: rest).length - 1) defaultNode).hash < t
    · simp only [hlast, if_true]
      have hnone : (x :: rest).find? (fun n => t ≤ n.hash) = none := by
        rw [List.find?_eq_none]
        intro n hn
        rcases List.mem_iff_getElem.mp hn with ⟨i, hilt, rfl⟩
        have : ((x :: rest).getD i defaultNode).hash ≤
            ((x :: rest).getD ((x :: rest).length - 1) defaultNode).hash :=
          sorted_getD_mono hs (by omega) (by omega)
        rw [List.getD_eq_getElem?_getD, List.getElem?_eq_getElem hilt] at this
        simp only [Option.getD_some] at this
        simp only [decide_eq_true_eq]
        omega
      rw [hnone]
      rfl
    · simp only [hlast, if_false]
      have hspec := findNodeGo_spec (x :: rest) t (x :: rest).length 0
        ((x :: rest).length - 1) (by omega) (by omega) (by omega) (Or.inl rfl)
      have hbounds := findNodeGo_bounds (x :: rest) t (x :: rest).length 0
        ((x :: rest).length - 1) (by omega)
      have hfind := find?_eq_of_first hs
        (i := findNodeGo (x :: rest) t (x :: rest).length 0 ((x :: rest).length - 1))
        (by
          have h1 := hbounds.2
          have h2 : (x :: rest).length = rest.length + 1 := rfl
          omega) hspec.1 hspec.2
      rw [hfind]
      rfl

/-- A successful ring lookup returns a node of the ring. -/
theorem findNode_mem {ring : List HashRingNode} {t : Nat} {n : HashRingNode}
    (h : findNode ring t = some n) : n ∈ ring := by
  match ring with
  | [] => simp [findNode] at h
  | x :: rest =>
    simp only [findNode] at h
    by_cases hlast : ((x :: rest).getD ((x :: rest).length - 1) defaultNode).hash < t
    · rw [if_pos hlast] at h
      rw [← Option.some_inj.mp h]
      exact getD_mem_of_lt (by simp)
    · rw [if_neg hlast] at h
      rw [← Option.some_inj.mp h]
      have := findNodeGo_bounds (x :: rest) t (x :: rest).length 0
        ((x :: rest).length - 1) (by omega)
      exact getD_mem_of_lt (by simp at this ⊢; omega)

/-- A nonempty ring always produces a lookup result. -/
theorem findNode_isSome {x : HashRingNode} {l : List HashRingNode} (t : Nat) :
    ∃ n, findNode (x :: l) t = some n ∧ n ∈ x :: l := by
  simp only [findNode]
  by_cases hlast : ((x :: l).getD ((x :: l).length - 1) defaultNode).hash < t
  · rw [if_pos hlast]
    exact ⟨_, rfl, getD_mem_of_lt (by simp)⟩
  · rw [if_neg hlast]
    have := findNodeGo_bounds (x :: l) t (x :: l).length 0
      ((x :: l).length - 1) (by omega)
    exact ⟨_, rfl, getD_mem_of_lt (by simp at this ⊢; omega)⟩

/-! ## Association-list (JS Map) lemmas -/

theorem mem_mapSet {m : List (String × String)} {k v : String}
    {p : String × String} (h : p ∈ mapSet m k v) : p = (k, v) ∨ p ∈ m := by
  unfold mapSet at h
  by_cases hany : m.any (fun p => p.1 == k)
  · rw [if_pos hany] at h
    rcases List.mem_map.mp h with ⟨q, hq, hfq⟩
    by_cases hqk : q.1 == k
    · left; rw [← hfq]; simp [hqk]
    · right; rw [← hfq]; simpa [hqk] using hq
  · rw [if_neg hany] at h
    rcases List.mem_append.mp h with h | h
    · exact Or.inr h
    · exact Or.inl (by simpa using h)

theorem mapSet_of_fresh {m : List (String × String)} {k : String} (v : String)
    (h : ∀ p ∈ m, p.1 ≠ k) : mapSet m k v = m ++ [(k, v)] := by
  have hany : (m.any fun p => p.1 == k) = false := by
    simp only [List.any_eq_false]
    intro p hp
    simpa using h p hp
  unfold mapSet
  rw [hany]
  simp

theorem mapGet_eq_none_iff {m : List (String × String)} {k : String} :
    mapGet m k = none ↔ ∀ p ∈ m, p.1 ≠ k := by
  simp [mapGet, List.find?_eq_none]

theorem mapGet_eq_some_mem {m : List (String × String)} {k v : String}
    (h : mapGet m k = some v) : (k, v) ∈ m := by
  unfold mapGet at h
  rcases hf : m.find? (fun p => p.1 == k) with _ | p
  · rw [hf] at h; simp at h
  · rw [hf] at h
    have hmem := List.mem_of_find?_eq_some hf
    have hkey := List.find?_some hf
    obtain ⟨p1, p2⟩ := p
    simp only [beq_iff_eq] at hkey
    simp at h
    subst hkey
    subst h
    exact hmem

theorem mapSet_keys_nodup {m : List (String × String)} {k v : String}
    (h : (m.map (fun p => p.1)).Nodup) : ((mapSet m k v).map (fun p => p.1)).Nodup := by
  unfold mapSet
  by_cases hany : m.any (fun p => p.1 == k)
  · rw [if_pos hany]
    have : (m.map (fun p => if p.1 == k then (k, v) else p)).map (fun p => p.1) =
        m.map (fun p => p.1) := by
      rw [List.map_map]
      refine List.map_congr_left ?_
      intro p _
      by_cases hp : p.1 == k
      · simp only [Function.comp_apply, hp, if_true]
        simpa using (beq_iff_eq.mp hp).symm
      · have hp2 : p.1 ≠ k := by simpa using hp
        simp [Function.comp_apply, hp2]
    rw [this]
    exact h
  · rw [if_neg hany]
    rw [List.map_append]
    simp only [List.any_eq_true, not_exists, not_and] at hany
    rw [List.nodup_append]
    refine ⟨h, List.nodup_singleton _, ?_⟩
    intro a ha hb
    simp only [List.map_cons, List.map_nil, List.mem_singleton] at hb
    subst hb
    rcases List.mem_map.mp ha with ⟨p, hp, hpk⟩
    exact hany p hp (by simp [hpk])

theorem contains_iff_mem {l : List String} {a : String} :
    l.contains a = true ↔ a ∈ l := by
  simp

/-! ## Characterization of route -/

theorem route_none_iff {r : StickyRouter} {u : UserId} :
    r.route u = none ↔ r.ring = [] := by
  rcases hr : r.ring with _ | ⟨x, rest⟩
  · simp [StickyRouter.route, hr]
  · simp only [StickyRouter.route, hr]
    constructor
    · intro h
      split at h <;> simp at h
    · intro h
      simp at h

theorem route_cached {r : StickyRouter} {u : UserId} {w : WorkerId}
    (hr : r.ring ≠ []) (hc : mapGet r.routingCache u = some w)
    (hw : w ≠ "") (hmem : r.workers.contains w = true) :
    r.route u = some ((⟨w, u, fnv1aHash u, false⟩ : RoutingDecision), r) := by
  rcases hring : r.ring with _ | ⟨x, rest⟩
  · exact absurd hring hr
  · simp only [StickyRouter.route, hring, hc, Option.getD_some]
    rw [if_pos ⟨hw, hmem⟩]

/-- Lookup path of `route`: when the JS guard on the cached value fails
(no entry, empty-string entry, or unregistered entry), the ring is
searched and the result cached. -/
theorem route_miss {r : StickyRouter} {u : UserId}
    (hcond : ¬(((mapGet r.routingCache u).getD "") ≠ "" ∧
      r.workers.contains ((mapGet r.routingCache u).getD "") = true))
    {x : HashRingNode} {rest : List HashRingNode} (hr : r.ring = x :: rest) :
    ∃ n, findNode r.ring (fnv1aHash u) = some n ∧ n ∈ r.ring ∧
      r.route u = some ((⟨n.workerId, u, fnv1aHash u,
          ((mapGet r.routingCache u).getD "" == "")⟩ : RoutingDecision),
        { r with routingCache := mapSet r.routingCache u n.workerId }) := by
  obtain ⟨n, hfind, hmem⟩ := findNode_isSome (x := x) (l := rest) (fnv1aHash u)
  refine ⟨n, by rw [hr]; exact hfind, by rw [hr]; exact hmem, ?_⟩
  simp only [StickyRouter.route, hr] at hcond ⊢
  rw [if_neg hcond, hr] at *
  rw [hfind]
  rfl

/-- Lookup path of `route` for an uncached user id. -/
theorem route_fresh {r : StickyRouter} {u : UserId}
    (hc : mapGet r.routingCache u = none) {x : HashRingNode}
    {rest : List HashRingNode} (hr : r.ring = x :: rest) :
    ∃ n, findNode r.ring (fnv1aHash u) = some n ∧ n ∈ r.ring ∧
      r.route u = some ((⟨n.workerId, u, fnv1aHash u, true⟩ : RoutingDecision),
        { r with routingCache := mapSet r.routingCache u n.workerId }) := by
  obtain ⟨n, h1, h2, h3⟩ := route_miss (r := r) (u := u) (by simp [hc]) hr
  refine ⟨n, h1, h2, ?_⟩
  rw [h3, hc]
  rfl

/-! ## Preservation of the consistency invariant -/

theorem length_nodeBlock (w : WorkerId) (vn : Nat) : (nodeBlock w vn).length = vn := by
  simp [nodeBlock]

theorem workerId_of_mem_nodeBlock {n : HashRingNode} {w : WorkerId} {vn : Nat}
    (h : n ∈ nodeBlock w vn) : n.workerId = w := by
  rcases List.mem_map.mp h with ⟨i, _, rfl⟩
  rfl

theorem countP_nodeBlock_self (w : WorkerId) (vn : Nat) :
    (nodeBlock w vn).countP (fun n => n.workerId == w) = vn := by
  have h1 : (nodeBlock w vn).countP (fun n => n.workerId == w) =
      (nodeBlock w vn).length := by
    rw [List.countP_eq_length]
    intro n hn
    simp [workerId_of_mem_nodeBlock hn]
  rw [h1, length_nodeBlock]

theorem countP_nodeBlock_ne {w w2 : WorkerId} (h : w2 ≠ w) (vn : Nat) :
    (nodeBlock w vn).countP (fun n => n.workerId == w2) = 0 := by
  rw [List.countP_eq_zero]
  intro n hn
  simp [workerId_of_mem_nodeBlock hn, h.symm]

theorem inv_new (vn : Nat) : (StickyRouter.new vn).Inv := by
  refine ⟨?_, ?_, ?_⟩ <;> simp [StickyRouter.new, StickyRouter.Inv]

theorem inv_addWorker {r : StickyRouter} (h : r.Inv) (w : WorkerId) :
    (r.addWorker w).Inv := by
  obtain ⟨hcache, hcount, hmem⟩ := h
  unfold StickyRouter.addWorker
  by_cases hc : r.workers.contains w
  · rw [if_pos hc]; exact ⟨hcache, hcount, hmem⟩
  · rw [if_neg hc]
    have hw : w ∉ r.workers := fun hmemw => hc (contains_iff_mem.mpr hmemw)
    refine ⟨?_, ?_, ?_⟩ <;> dsimp only
    · intro p hp
      exact List.mem_append_left _ (hcache p hp)
    · intro w2 hw2
      have hperm := (sortNodes_perm (r.ring ++ nodeBlock w r.virtualNodes)).countP_eq
        (fun n => n.workerId == w2)
      rw [hperm, List.countP_append]
      rcases List.mem_append.mp hw2 with hw2 | hw2
      · have hne : w2 ≠ w := fun he => hw (he ▸ hw2)
        rw [hcount w2 hw2, countP_nodeBlock_ne hne]
        omega
      · have he : w2 = w := by simpa using hw2
        subst he
        have hzero : r.ring.countP (fun n => n.workerId == w2) = 0 := by
          rw [List.countP_eq_zero]
          intro n hn
          have := hmem n hn
          simp only [beq_iff_eq]
          intro heq
          exact hw (heq ▸ this)
        rw [hzero, countP_nodeBlock_self]
        omega
    · intro n hn
      rcases List.mem_append.mp (mem_sortNodes.mp hn) with hn | hn
      · exact List.mem_append_left _ (hmem n hn)
      · exact List.mem_append_right _ (by simp [workerId_of_mem_nodeBlock hn])

theorem inv_removeWorker {r : StickyRouter} (h : r.Inv) (w : WorkerId) :
    (r.removeWorker w).Inv := by
  obtain ⟨hcache, hcount, hmem⟩ := h
  unfold StickyRouter.removeWorker
  by_cases hc : r.workers.contains w
  · rw [if_pos hc]
    refine ⟨?_, ?_, ?_⟩ <;> dsimp only
    · intro p hp
      have hp2 := List.mem_of_mem_filter hp
      have hpw := List.of_mem_filter hp
      simp only [decide_eq_true_eq] at hpw
      exact List.mem_filter.mpr ⟨hcache p hp2, by simpa using hpw⟩
    · intro w2 hw2
      have hw2m := List.mem_of_mem_filter hw2
      have hw2ne := List.of_mem_filter hw2
      simp only [decide_eq_true_eq] at hw2ne
      rw [List.countP_filter]
      rw [List.countP_congr (q := fun n => n.workerId == w2) ?_]
      · exact hcount w2 hw2m
      · intro n _
        constructor
        · intro hn
          simp only [Bool.and_eq_true] at hn
          exact hn.1
        · intro hn
          simp only [Bool.and_eq_true]
          refine ⟨hn, ?_⟩
          simp only [beq_iff_eq] at hn
          simp [hn, hw2ne]
    · intro n hn
      have hn2 := List.mem_of_mem_filter hn
      have hnw := List.of_mem_filter hn
      simp only [decide_eq_true_eq] at hnw
      exact List.mem_filter.mpr ⟨hmem n hn2, by simpa using hnw⟩
  · rw [if_neg hc]
    exact ⟨hcache, hcount, hmem⟩

theorem inv_route {r r2 : StickyRouter} {u : UserId} {d : RoutingDecision}
    (h : r.Inv) (hr : r.route u = some (d, r2)) : r2.Inv := by
  obtain ⟨hcache, hcount, hmem⟩ := h
  rcases hring : r.ring with _ | ⟨x, rest⟩
  · rw [route_none_iff.mpr hring] at hr; cases hr
  · by_cases hcond : ((mapGet r.routingCache u).getD "") ≠ "" ∧
        r.workers.contains ((mapGet r.routingCache u).getD "") = true
    · rcases hcv : mapGet r.routingCache u with _ | w
      · rw [hcv] at hcond; simp at hcond
      · rw [hcv] at hcond
        simp only [Option.getD_some] at hcond
        rw [route_cached (hring ▸ List.cons_ne_nil x rest) hcv hcond.1 hcond.2] at hr
        obtain ⟨-, rfl⟩ := Prod.mk.injEq .. ▸ Option.some_inj.mp hr
        exact ⟨hcache, hcount, hmem⟩
    · obtain ⟨n, hfind, hnmem, heq⟩ := route_miss hcond hring
      rw [heq] at hr
      obtain ⟨-, rfl⟩ := Prod.mk.injEq .. ▸ Option.some_inj.mp hr
      refine ⟨?_, hcount, hmem⟩
      intro p hp
      rcases mem_mapSet hp with rfl | hp
      · exact hmem n hnmem
      · exact hcache p hp

theorem inv_forceAssign {r r2 : StickyRouter} {u : UserId} {w : WorkerId}
    (h : r.Inv) (hf : r.forceAssign u w = some r2) : r2.Inv := by
  obtain ⟨hcache, hcount, hmem⟩ := h
  unfold StickyRouter.forceAssign at hf
  by_cases hc : r.workers.contains w
  · rw [if_pos hc] at hf
    obtain rfl := Option.some_inj.mp hf
    refine ⟨?_, hcount, hmem⟩
    intro p hp
    rcases mem_mapSet hp with rfl | hp
    · exact contains_iff_mem.mp hc
    · exact hcache p hp
  · rw [if_neg hc] at hf; cases hf

theorem inv_clearAssignment {r : StickyRouter} (h : r.Inv) (u : UserId) :
    (r.clearAssignment u).Inv := by
  obtain ⟨hcache, hcount, hmem⟩ := h
  exact ⟨fun p hp => hcache p (List.mem_of_mem_filter hp), hcount, hmem⟩

theorem inv_clearCache {r : StickyRouter} (h : r.Inv) : r.clearCache.Inv := by
  obtain ⟨hcache, hcount, hmem⟩ := h
  exact ⟨by simp [StickyRouter.clearCache], hcount, hmem⟩

theorem inv_fromState (st : StickyRouterState) : (StickyRouter.fromState st).Inv := by
  have hbase : ∀ (ws : List WorkerId) (s : StickyRouter), s.Inv →
      (ws.foldl (fun r w => r.addWorker w) s).Inv := by
    intro ws
    induction ws with
    | nil => intro s hs; exact hs
    | cons w t ih => intro s hs; exact ih _ (inv_addWorker hs w)
  have h1 : (st.workers.foldl (fun r w => r.addWorker w)
      (StickyRouter.new st.virtualNodes)).Inv := hbase _ _ (inv_new _)
  set r1 := st.workers.foldl (fun r w => r.addWorker w) (StickyRouter.new st.virtualNodes)
    with hr1
  obtain ⟨hcache1, hcount1, hmem1⟩ := h1
  have hfold : ∀ (ps : List (UserId × WorkerId)) (c : List (UserId × WorkerId)),
      (∀ p ∈ c, p.2 ∈ r1.workers) →
      (∀ p ∈ ps.foldl
        (fun c p => if r1.workers.contains p.2 then mapSet c p.1 p.2 else c) c,
        p.2 ∈ r1.workers) := by
    intro ps
    induction ps with
    | nil => intro c hc; exact hc
    | cons q t ih =>
      intro c hc
      simp only [List.foldl_cons]
      by_cases hq : r1.workers.contains q.2
      · rw [if_pos hq]
        refine ih _ ?_
        intro p hp
        rcases mem_mapSet hp with he | hp
        · rw [he]
          exact contains_iff_mem.mp hq
        · exact hc p hp
      · rw [if_neg hq]
        exact ih _ hc
  refine ⟨?_, hcount1, hmem1⟩
  intro p hp
  exact hfold st.assignments r1.routingCache hcache1 p hp

/-! ## Preservation of the representation invariant -/

theorem flatten_blocks_filter (ws : List WorkerId) (vn : Nat) (w : WorkerId) :
    ((ws.map (fun x => nodeBlock x vn)).flatten).filter (fun n => n.workerId ≠ w) =
      ((ws.filter (fun x => x ≠ w)).map (fun x => nodeBlock x vn)).flatten := by
  induction ws with
  | nil => rfl
  | cons a t ih =>
    simp only [List.map_cons, List.flatten_cons, List.filter_append, List.filter_cons]
    by_cases haw : a = w
    · have hblock : (nodeBlock a vn).filter (fun n => n.workerId ≠ w) = [] := by
        rw [List.filter_eq_nil_iff]
        intro n hn
        simp [workerId_of_mem_nodeBlock hn, haw]
      rw [hblock, ih]
      simp [haw]
    · have hblock : (nodeBlock a vn).filter (fun n => n.workerId ≠ w) = nodeBlock a vn := by
        rw [List.filter_eq_self]
        intro n hn
        simp [workerId_of_mem_nodeBlock hn, haw]
      rw [hblock, ih]
      simp only [decide_eq_true_eq]
      rw [if_pos haw]
      simp

theorem wf_new (vn : Nat) : (StickyRouter.new vn).WF := by
  refine ⟨?_, ?_, ?_⟩ <;> simp [StickyRouter.new, StickyRouter.WF, sortNodes]

theorem wf_addWorker {r : StickyRouter} (h : r.WF) (w : WorkerId) :
    (r.addWorker w).WF := by
  obtain ⟨hnd, hknd, hcanon⟩ := h
  unfold StickyRouter.addWorker
  by_cases hc : r.workers.contains w
  · rw [if_pos hc]; exact ⟨hnd, hknd, hcanon⟩
  · rw [if_neg hc]
    have hw : w ∉ r.workers := fun hmemw => hc (contains_iff_mem.mpr hmemw)
    refine ⟨?_, hknd, ?_⟩ <;> dsimp only
    · rw [List.nodup_append]
      refine ⟨hnd, List.nodup_singleton _, ?_⟩
      intro a ha hb
      rw [List.mem_singleton] at hb
      exact hw (hb ▸ ha)
    · rw [hcanon, sortNodes_sortNodes_append]
      simp [List.map_append]

theorem wf_removeWorker {r : StickyRouter} (h : r.WF) (w : WorkerId) :
    (r.removeWorker w).WF := by
  obtain ⟨hnd, hknd, hcanon⟩ := h
  unfold StickyRouter.removeWorker
  by_cases hc : r.workers.contains w
  · rw [if_pos hc]
    refine ⟨hnd.filter _, ?_, ?_⟩ <;> dsimp only
    · exact List.Nodup.sublist (List.Sublist.map _ (List.filter_sublist _)) hknd
    · rw [hcanon, filter_sortNodes, flatten_blocks_filter]
  · rw [if_neg hc]
    exact ⟨hnd, hknd, hcanon⟩

theorem wf_route {r r2 : StickyRouter} {u : UserId} {d : RoutingDecision}
    (h : r.WF) (hr : r.route u = some (d, r2)) : r2.WF := by
  obtain ⟨hnd, hknd, hcanon⟩ := h
  rcases hring : r.ring with _ | ⟨x, rest⟩
  · rw [route_none_iff.mpr hring] at hr; cases hr
  · by_cases hcond : ((mapGet r.routingCache u).getD "") ≠ "" ∧
        r.workers.contains ((mapGet r.routingCache u).getD "") = true
    · rcases hcv : mapGet r.routingCache u with _ | w
      · rw [hcv] at hcond; simp at hcond
      · rw [hcv] at hcond
        simp only [Option.getD_some] at hcond
        rw [route_cached (hring ▸ List.cons_ne_nil x rest) hcv hcond.1 hcond.2] at hr
        obtain ⟨-, rfl⟩ := Prod.mk.injEq .. ▸ Option.some_inj.mp hr
        exact ⟨hnd, hknd, hcanon⟩
    · obtain ⟨n, hfind, hnmem, heq⟩ := route_miss hcond hring
      rw [heq] at hr
      obtain ⟨-, rfl⟩ := Prod.mk.injEq .. ▸ Option.some_inj.mp hr
      exact ⟨hnd, mapSet_keys_nodup hknd, hcanon⟩

theorem wf_forceAssign {r r2 : StickyRouter} {u : UserId} {w : WorkerId}
    (h : r.WF) (hf : r.forceAssign u w = some r2) : r2.WF := by
  obtain ⟨hnd, hknd, hcanon⟩ := h
  unfold StickyRouter.forceAssign at hf
  by_cases hc : r.workers.contains w
  · rw [if_pos hc] at hf
    obtain rfl := Option.some_inj.mp hf
    exact ⟨hnd, mapSet_keys_nodup hknd, hcanon⟩
  · rw [if_neg hc] at hf; cases hf

theorem wf_clearAssignment {r : StickyRouter} (h : r.WF) (u : UserId) :
    (r.clearAssignment u).WF := by
  obtain ⟨hnd, hknd, hcanon⟩ := h
  exact ⟨hnd, List.Nodup.sublist (List.Sublist.map _ (List.filter_sublist _)) hknd, hcanon⟩

theorem wf_clearCache {r : StickyRouter} (h : r.WF) : r.clearCache.WF := by
  obtain ⟨hnd, hknd, hcanon⟩ := h
  exact ⟨hnd, List.nodup_nil, hcanon⟩

theorem wf_fromState (st : StickyRouterState) : (StickyRouter.fromState st).WF := by
  have hbase : ∀ (ws : List WorkerId) (s : StickyRouter), s.WF →
      (ws.foldl (fun r w => r.addWorker w) s).WF := by
    intro ws
    induction ws with
    | nil => intro s hs; exact hs
    | cons w t ih => intro s hs; exact ih _ (wf_addWorker hs w)
  have h1 : (st.workers.foldl (fun r w => r.addWorker w)
      (StickyRouter.new st.virtualNodes)).WF := hbase _ _ (wf_new _)
  set r1 := st.workers.foldl (fun r w => r.addWorker w) (StickyRouter.new st.virtualNodes)
    with hr1
  obtain ⟨hnd1, hknd1, hcanon1⟩ := h1
  have hfold : ∀ (ps : List (UserId × WorkerId)) (c : List (UserId × WorkerId)),
      ((c.map (fun p => p.1)).Nodup) →
      (((ps.foldl
        (fun c p => if r1.workers.contains p.2 then mapSet c p.1 p.2 else c) c)).map
          (fun p => p.1)).Nodup := by
    intro ps
    induction ps with
    | nil => intro c hc; exact hc
    | cons q t ih =>
      intro c hc
      simp only [List.foldl_cons]
      by_cases hq : r1.workers.contains q.2
      · rw [if_pos hq]
        exact ih _ (mapSet_keys_nodup hc)
      · rw [if_neg hq]
        exact ih _ hc
  exact ⟨hnd1, hfold st.assignments r1.routingCache hknd1, hcanon1⟩

/-- Every reachable router satisfies both invariants. -/
theorem reachable_inv_wf {r : StickyRouter} (h : StickyRouter.Reachable r) :
    r.Inv ∧ r.WF := by
  induction h with
  | new vn => exact ⟨inv_new vn, wf_new vn⟩
  | addWorker w _ ih => exact ⟨inv_addWorker ih.1 w, wf_addWorker ih.2 w⟩
  | removeWorker w _ ih => exact ⟨inv_removeWorker ih.1 w, wf_removeWorker ih.2 w⟩
  | route _ hr ih => exact ⟨inv_route ih.1 hr, wf_route ih.2 hr⟩
  | forceAssign _ hf ih => exact ⟨inv_forceAssign ih.1 hf, wf_forceAssign ih.2 hf⟩
  | clearAssignment u _ ih => exact ⟨inv_clearAssignment ih.1 u, wf_clearAssignment ih.2 u⟩
  | clearCache _ ih => exact ⟨inv_clearCache ih.1, wf_clearCache ih.2⟩
  | fromState st => exact ⟨inv_fromState st, wf_fromState st⟩

/-! ## The export/import round trip -/

theorem foldl_addWorker_spec (vn : Nat) :
    ∀ (ws : List WorkerId) (s : StickyRouter), s.virtualNodes = vn →
      (∀ w ∈ ws, w ∉ s.workers) → ws.Nodup →
      s.ring = sortNodes ((s.workers.map (fun x => nodeBlock x vn)).flatten) →
      (ws.foldl (fun r w => r.addWorker w) s).workers = s.workers ++ ws ∧
      (ws.foldl (fun r w => r.addWorker w) s).ring =
        sortNodes (((s.workers ++ ws).map (fun x => nodeBlock x vn)).flatten) ∧
      (ws.foldl (fun r w => r.addWorker w) s).routingCache = s.routingCache ∧
      (ws.foldl (fun r w => r.addWorker w) s).virtualNodes = vn := by
  intro ws
  induction ws with
  | nil =>
    intro s hvn _ _ hcanon
    exact ⟨by simp, by simpa using hcanon, rfl, hvn⟩
  | cons w t ih =>
    intro s hvn hdisj hnd hcanon
    have hw : w ∉ s.workers := hdisj w (List.mem_cons_self w t)
    have hc : ¬ s.workers.contains w = true := fun hcc => hw (contains_iff_mem.mp hcc)
    simp only [List.foldl_cons]
    have hstep : s.addWorker w =
        { s with workers := s.workers ++ [w]
                 ring := sortNodes (s.ring ++ nodeBlock w s.virtualNodes) } := by
      unfold StickyRouter.addWorker
      rw [if_neg hc]
    rw [hstep]
    have hres := ih { s with workers := s.workers ++ [w]
                             ring := sortNodes (s.ring ++ nodeBlock w s.virtualNodes) }
      hvn ?_ (List.nodup_cons.mp hnd).2 ?_
    · obtain ⟨h1, h2, h3, h4⟩ := hres
      refine ⟨?_, ?_, h3, h4⟩
      · rw [h1]; dsimp only; rw [List.append_assoc]; rfl
      · rw [h2]; dsimp only; rw [List.append_assoc]; rfl
    · intro w2 hw2
      dsimp only
      rw [List.mem_append, List.mem_singleton]
      rintro (hmem | rfl)
      · exact hdisj w2 (List.mem_cons_of_mem w hw2) hmem
      · exact (List.nodup_cons.mp hnd).1 hw2
    · dsimp only
      rw [hcanon, hvn, sortNodes_sortNodes_append]
      simp [List.map_append]

theorem foldl_guard_mapSet (g : String × String → Bool) :
    ∀ (ps acc : List (String × String)),
      (((acc ++ ps).map (fun p => p.1)).Nodup) →
      (∀ p ∈ ps, g p = true) →
      ps.foldl (fun c p => if g p then mapSet c p.1 p.2 else c) acc = acc ++ ps := by
  intro ps
  induction ps with
  | nil => intro acc _ _; simp
  | cons q t ih =>
    intro acc hnd hg
    simp only [List.foldl_cons]
    rw [if_pos (hg q (List.mem_cons_self q t))]
    have hfresh : ∀ p ∈ acc, p.1 ≠ q.1 := by
      intro p hp he
      rw [List.map_append, List.nodup_append] at hnd
      refine hnd.2.2 (List.mem_map.mpr ⟨p, hp, rfl⟩) ?_
      rw [he]
      simp
    rw [mapSet_of_fresh q.2 hfresh]
    have hq : q = (q.1, q.2) := rfl
    rw [← hq]
    have := ih (acc ++ [q]) ?_ (fun p hp => hg p (List.mem_cons_of_mem q hp))
    · rw [this, List.append_assoc]
      rfl
    · rw [List.append_assoc]
      simpa using hnd

/-- Core of the export/import round trip: a router satisfying the
invariants is reconstructed exactly by `fromState (exportState r)`. -/
theorem fromState_exportState_eq {r : StickyRouter} (hinv : r.Inv) (hwf : r.WF) :
    StickyRouter.fromState r.exportState = r := by
  obtain ⟨hcache, hcount, hmem⟩ := hinv
  obtain ⟨hnd, hknd, hcanon⟩ := hwf
  unfold StickyRouter.fromState StickyRouter.exportState
  dsimp only
  have hspec := foldl_addWorker_spec r.virtualNodes r.workers
    (StickyRouter.new r.virtualNodes) rfl (by intro w _; simp [StickyRouter.new]) hnd
    (by simp [StickyRouter.new, sortNodes])
  obtain ⟨h1, h2, h3, h4⟩ := hspec
  set r1 := r.workers.foldl (fun r w => r.addWorker w) (StickyRouter.new r.virtualNodes)
    with hr1
  have hcachefold : r.routingCache.foldl
      (fun c p => if r1.workers.contains p.2 then mapSet c p.1 p.2 else c)
      r1.routingCache = r.routingCache := by
    rw [h3]
    have := foldl_guard_mapSet (fun p => r1.workers.contains p.2) r.routingCache []
      (by simpa [StickyRouter.new] using hknd) ?_
    · simpa [StickyRouter.new] using this
    · intro p hp
      rw [h1]
      simp only [StickyRouter.new]
      exact contains_iff_mem.mpr (by simpa using hcache p hp)
  rw [hcachefold]
  have hring : r1.ring = r.ring := by
    rw [h2, hcanon]
    simp [StickyRouter.new]
  have hworkers : r1.workers = r.workers := by
    rw [h1]; simp [StickyRouter.new]
  obtain ⟨rring, rws, rcache, rvn⟩ := r
  simp only at hring hworkers h4 ⊢
  rw [StickyRouter.mk.injEq]
  exact ⟨hring, hworkers, rfl, h4⟩

/-! ## Further infrastructure: sortedness check, decimal parsing, fresh routing -/

theorem nodeSorted_of_sortedByHash : ∀ {l : List HashRingNode},
    sortedByHash l = true → NodeSorted l
  | [], _ => List.Pairwise.nil
  | [a], _ => by simp [NodeSorted]
  | a :: b :: t, h => by
    rw [show sortedByHash (a :: b :: t) = (nodeLe a b && sortedByHash (b :: t)) from rfl,
      Bool.and_eq_true] at h
    have ih := nodeSorted_of_sortedByHash h.2
    refine List.pairwise_cons.mpr ⟨?_, ih⟩
    intro y hy
    rcases List.mem_cons.mp hy with rfl | hy
    · exact h.1
    · have hb := (List.pairwise_cons.mp ih).1 y hy
      have hab := h.1
      simp only [nodeLe, decide_eq_true_eq] at hab hb ⊢
      omega

theorem natOfChars_append_singleton (l : List Char) (c : Char) :
    natOfChars (l ++ [c]) = 10 * natOfChars l + (c.toNat - 48) := by
  simp [natOfChars, List.foldl_append]

theorem toDigitsCore_append : ∀ (n : Nat), ∀ (fuel : Nat), n < fuel → ∀ (ds : List Char),
    Nat.toDigitsCore 10 fuel n ds = Nat.toDigitsCore 10 fuel n [] ++ ds := by
  intro n
  induction n using Nat.strong_induction_on with
  | _ n ih =>
    intro fuel hlt ds
    match fuel, hlt with
    | fuel + 1, _ =>
      simp only [Nat.toDigitsCore]
      by_cases hz : n / 10 = 0
      · simp [hz]
      · simp only [hz, if_false]
        have hnz : n ≠ 0 := fun he => hz (by simp [he])
        have hn10 : n / 10 < n := Nat.div_lt_self (Nat.pos_of_ne_zero hnz) (by omega)
        rw [ih (n / 10) hn10 fuel (by omega) (Nat.digitChar (n % 10) :: ds),
          ih (n / 10) hn10 fuel (by omega) [Nat.digitChar (n % 10)]]
        simp

theorem natOfChars_toDigitsCore : ∀ (n : Nat) (fuel : Nat), n < fuel →
    natOfChars (Nat.toDigitsCore 10 fuel n []) = n := by
  have hdig : ∀ d, d < 10 → (Nat.digitChar d).toNat - 48 = d := by decide
  intro n
  induction n using Nat.strong_induction_on with
  | _ n ih =>
    intro fuel hlt
    match fuel, hlt with
    | fuel + 1, _ =>
      simp only [Nat.toDigitsCore]
      by_cases hz : n / 10 = 0
      · rw [if_pos hz]
        have hmod : n % 10 < 10 := Nat.mod_lt _ (by omega)
        have heq : n = n % 10 := by
          conv_lhs => rw [← Nat.div_add_mod n 10]
          rw [hz]
          omega
        show natOfChars [Nat.digitChar (n % 10)] = n
        simp only [natOfChars, List.foldl_cons, List.foldl_nil]
        rw [hdig _ hmod]
        omega
      · rw [if_neg hz]
        have hnz : n ≠ 0 := fun he => hz (by simp [he])
        have hn10 : n / 10 < n := Nat.div_lt_self (Nat.pos_of_ne_zero hnz) (by omega)
        rw [toDigitsCore_append (n / 10) fuel (by omega) [Nat.digitChar (n % 10)]]
        rw [natOfChars_append_singleton, ih (n / 10) hn10 fuel (by omega)]
        have hmod : n % 10 < 10 := Nat.mod_lt _ (by omega)
        rw [hdig _ hmod]
        have := Nat.div_add_mod n 10
        omega

theorem natOfChars_repr (n : Nat) : natOfChars (Nat.repr n).data = n := by
  show natOfChars (Nat.toDigitsCore 10 (n + 1) n []) = n
  exact natOfChars_toDigitsCore n (n + 1) (by omega)

theorem toString_nat_injective {m n : Nat} (h : toString m = toString n) : m = n := by
  have hm := natOfChars_repr m
  have hn := natOfChars_repr n
  have he : Nat.repr m = Nat.repr n := h
  rw [he, hn] at hm
  exact hm.symm

theorem c6Users_nodup : c6Users.Nodup := by
  refine List.Nodup.map ?_ (List.nodup_range 1000)
  intro i j hij
  simp only at hij
  have : toString i = toString j := by
    have hd := congrArg String.data hij
    rw [String.data_append, String.data_append] at hd
    have := List.append_cancel_left hd
    exact congrArg String.mk this
  exact toString_nat_injective this

/-- On a sorted nonempty ring, the worker found by the source's binary
search is the one found by linear first-match lookup. -/
theorem findNode_workerId_eq_workerFor {ring : List HashRingNode}
    (hs : NodeSorted ring) (hne : ring ≠ []) (t : Nat) :
    ((findNode ring t).getD defaultNode).workerId = workerFor ring t := by
  match ring, hne with
  | x :: rest, _ =>
    rw [findNode_eq_findFirst hs]
    rfl

theorem mapGet_mapSet_self (m : List (String × String)) (k v : String) :
    mapGet (mapSet m k v) k = some v := by
  unfold mapSet
  by_cases hany : m.any (fun p => p.1 == k)
  · rw [if_pos hany]
    induction m with
    | nil => simp at hany
    | cons q t ih =>
      by_cases hq : q.1 == k
      · simp only [List.map_cons, hq, if_pos]
        simp [mapGet]
      · simp only [List.map_cons, hq, Bool.false_eq_true, if_false]
        have hany2 : t.any (fun p => p.1 == k) = true := by
          simp only [List.any_cons, hq, Bool.false_or] at hany
          exact hany
        have := ih hany2
        simp only [mapGet] at this ⊢
        rw [@List.find?_cons_of_neg _ (fun p => p.1 == k) q _ hq]
        exact this
  · rw [if_neg hany]
    simp only [List.any_eq_true, not_exists, not_and] at hany
    have hnone : m.find? (fun p => p.1 == k) = none := by
      rw [List.find?_eq_none]
      intro p hp
      exact fun hb => hany p hp hb
    simp [mapGet, List.find?_append, hnone]

theorem mapGet_append_none {m : List (String × String)} {k0 : String}
    (v : String) {k : String} (h : mapGet m k = none) (hne : k0 ≠ k) :
    mapGet (m ++ [(k0, v)]) k = none := by
  rw [mapGet_eq_none_iff] at h ⊢
  intro p hp
  rcases List.mem_append.mp hp with hp | hp
  · exact h p hp
  · rw [List.mem_singleton] at hp
    rw [hp]
    exact hne

/-- Routing a list of pairwise-distinct, uncached user ids appends one
ring-lookup assignment per user and changes nothing else. -/
theorem routeAll_fresh : ∀ (us : List String) (r : StickyRouter), r.ring ≠ [] →
    us.Nodup → (∀ u ∈ us, mapGet r.routingCache u = none) →
    (routeAll r us).ring = r.ring ∧ (routeAll r us).workers = r.workers ∧
    (routeAll r us).virtualNodes = r.virtualNodes ∧
    (routeAll r us).routingCache = r.routingCache ++
      us.map (fun u => (u, ((findNode r.ring (fnv1aHash u)).getD defaultNode).workerId)) := by
  intro us
  induction us with
  | nil => intro r _ _ _; exact ⟨rfl, rfl, rfl, by simp [routeAll]⟩
  | cons u t ih =>
    intro r hne hnd hfresh
    match hring : r.ring, hne with
    | x :: rest, _ =>
      have hcu : mapGet r.routingCache u = none := hfresh u (List.mem_cons_self u t)
      obtain ⟨n, hfind, hnmem, heq⟩ := route_fresh hcu hring
      have hstep : routeAll r (u :: t) =
          routeAll { r with routingCache := mapSet r.routingCache u n.workerId } t := by
        show (u :: t).foldl
          (fun r u => match r.route u with | some (_, r2) => r2 | none => r) r = _
        rw [List.foldl_cons, heq]
        rfl
      rw [hstep]
      have hfresh2 : mapSet r.routingCache u n.workerId =
          r.routingCache ++ [(u, n.workerId)] :=
        mapSet_of_fresh _ (mapGet_eq_none_iff.mp hcu)
      have hne2 : ({ r with routingCache := mapSet r.routingCache u n.workerId }
          : StickyRouter).ring ≠ [] := by
        show r.ring ≠ []
        rw [hring]
        exact List.cons_ne_nil x rest
      have ihres := ih { r with routingCache := mapSet r.routingCache u n.workerId }
        hne2 (List.nodup_cons.mp hnd).2 ?_
      · obtain ⟨h1, h2, h3, h4⟩ := ihres
        refine ⟨?_, ?_, ?_, ?_⟩
        · rw [← hring]; exact h1
        · exact h2
        · exact h3
        · rw [h4]
          dsimp only
          rw [hfresh2, List.append_assoc]
          rw [← hring, List.map_cons, hfind]
          rfl
      · intro u2 hu2
        dsimp only
        rw [hfresh2]
        exact mapGet_append_none _ (hfresh u2 (List.mem_cons_of_mem u hu2))
          (fun he => (List.nodup_cons.mp hnd).1 (he ▸ hu2))

/-! ## Small addWorker facts -/

theorem addWorker_routingCache (r : StickyRouter) (w : WorkerId) :
    (r.addWorker w).routingCache = r.routingCache := by
  unfold StickyRouter.addWorker
  by_cases hc : r.workers.contains w
  · rw [if_pos hc]
  · rw [if_neg hc]

theorem addWorker_idem (r : StickyRouter) (w : WorkerId) :
    (r.addWorker w).addWorker w = r.addWorker w := by
  by_cases hc : r.workers.contains w
  · unfold StickyRouter.addWorker
    rw [if_pos hc, if_pos hc]
  · have hc2 : (r.addWorker w).workers.contains w = true := by
      unfold StickyRouter.addWorker
      rw [if_neg hc]
      exact contains_iff_mem.mpr (List.mem_append_right _ (List.mem_singleton_self w))
    conv_lhs => rw [StickyRouter.addWorker, if_pos hc2]

theorem addWorker_workers_mono {r : StickyRouter} {w2 : WorkerId} (w : WorkerId)
    (h : w2 ∈ r.workers) : w2 ∈ (r.addWorker w).workers := by
  unfold StickyRouter.addWorker
  by_cases hc : r.workers.contains w
  · rw [if_pos hc]; exact h
  · rw [if_neg hc]; exact List.mem_append_left _ h

theorem addWorker_ring_ne_nil {r : StickyRouter} (h : r.ring ≠ []) (w : WorkerId) :
    (r.addWorker w).ring ≠ [] := by
  unfold StickyRouter.addWorker
  by_cases hc : r.workers.contains w
  · rw [if_pos hc]; exact h
  · rw [if_neg hc]
    dsimp only
    intro hnil
    have hlen := (sortNodes_perm (r.ring ++ nodeBlock w r.virtualNodes)).length_eq
    rw [hnil] at hlen
    simp only [List.length_nil, List.length_append] at hlen
    exact h (List.eq_nil_of_length_eq_zero (by omega))

/-! ## Claim C1 -/

/-- C1 (counterexample): the claim fails for the reachable router with the
registered worker whose id is the empty string. After addWorker "",
forceAssign "u" "" and addWorker "b", the user "u" has the cached
assignment "" and "" is still in the pool, yet route "u" returns "b": the
JS guard treats the cached empty-string id as falsy and re-routes. -/
theorem C1_counterexample :
    mapGet (((((StickyRouter.new 1).addWorker "").forceAssign "u" "").getD
        (StickyRouter.new 0)).addWorker "b").routingCache "u" = some "" ∧
    "" ∈ (((((StickyRouter.new 1).addWorker "").forceAssign "u" "").getD
        (StickyRouter.new 0)).addWorker "b").workers ∧
    ((((((StickyRouter.new 1).addWorker "").forceAssign "u" "").getD
        (StickyRouter.new 0)).addWorker "b").route "u").map (fun p => p.1.workerId) =
      some "b" ∧
    ("b" : String) ≠ "" := by decide

/-- C1 (amended): stickiness across pool growth, provided the cached
worker id is a nonempty string. If u is cached to w, w is in the pool and
w is nonempty, then route u returns w without touching the state;
addWorker is idempotent and never modifies the cache; and after any
addWorker the cached user still routes to its prior worker. -/
theorem C1_stickiness_on_add (r : StickyRouter) (w w2 : WorkerId) (u : UserId)
    (hc : mapGet r.routingCache u = some w) (hmem : w ∈ r.workers)
    (hne : w ≠ "") (hring : r.ring ≠ []) :
    r.route u = some ((⟨w, u, fnv1aHash u, false⟩ : RoutingDecision), r) ∧
    (r.addWorker w2).addWorker w2 = r.addWorker w2 ∧
    (r.addWorker w2).routingCache = r.routingCache ∧
    (r.addWorker w2).route u =
      some ((⟨w, u, fnv1aHash u, false⟩ : RoutingDecision), r.addWorker w2) := by
  refine ⟨route_cached hring hc hne (contains_iff_mem.mpr hmem), addWorker_idem r w2,
    addWorker_routingCache r w2, ?_⟩
  refine route_cached (addWorker_ring_ne_nil hring w2) ?_ hne
    (contains_iff_mem.mpr (addWorker_workers_mono w2 hmem))
  rw [addWorker_routingCache]
  exact hc

/-- C1 (witness) for the amended theorem at a concrete router. -/
theorem C1_stickiness_on_add_witness :
    (mapGet ((((StickyRouter.new 1).addWorker "a").forceAssign "u" "a").getD
        (StickyRouter.new 0)).routingCache "u" = some "a" ∧
      "a" ∈ ((((StickyRouter.new 1).addWorker "a").forceAssign "u" "a").getD
        (StickyRouter.new 0)).workers ∧
      ("a" : String) ≠ "" ∧
      ((((StickyRouter.new 1).addWorker "a").forceAssign "u" "a").getD
        (StickyRouter.new 0)).ring ≠ []) ∧
    ((((StickyRouter.new 1).addWorker "a").forceAssign "u" "a").getD
        (StickyRouter.new 0)).route "u" =
      some ((⟨"a", "u", fnv1aHash "u", false⟩ : RoutingDecision),
        (((StickyRouter.new 1).addWorker "a").forceAssign "u" "a").getD
          (StickyRouter.new 0)) :=
  ⟨⟨by decide, by decide, by decide, by decide⟩,
    (C1_stickiness_on_add _ "a" "b" "u" (by decide) (by decide) (by decide) (by decide)).1⟩

/-! ## Claim C2 -/

/-- C2 (counterexample): with the single registered worker "" (empty
string), the second route of "u" still reports isNewAssignment = true even
though "u" is cached and its worker is registered, because the JS cache
guard treats the empty string as falsy. -/
theorem C2_counterexample :
    ((((StickyRouter.new 1).addWorker "").route "u").bind
        (fun p => p.2.route "u")).map (fun p => p.1.isNewAssignment) = some true ∧
    (((StickyRouter.new 1).addWorker "").route "u").map
        (fun p => mapGet p.2.routingCache "u") = some (some "") ∧
    (((StickyRouter.new 1).addWorker "").route "u").map
        (fun p => p.2.workers.contains "") = some true := by decide

/-- C2 (amended): the route contract, provided every registered worker id
is nonempty, cached assignments map to registered workers, and ring nodes
belong to registered workers (all true of pool-managed routers): route
fails exactly on the empty ring; a cached user id returns its worker with
isNewAssignment false and unchanged state; an uncached id performs the
ring lookup, caches it, and reports isNewAssignment true; and a second
route of the same id reports isNewAssignment false. -/
theorem C2_route_contract (r : StickyRouter) (u : UserId)
    (hW : ∀ w ∈ r.workers, w ≠ "")
    (hC : ∀ p ∈ r.routingCache, p.2 ∈ r.workers)
    (hR : ∀ n ∈ r.ring, n.workerId ∈ r.workers) :
    (r.route u = none ↔ r.ring = []) ∧
    (∀ w, mapGet r.routingCache u = some w → r.ring ≠ [] →
      r.route u = some ((⟨w, u, fnv1aHash u, false⟩ : RoutingDecision), r)) ∧
    (mapGet r.routingCache u = none → r.ring ≠ [] →
      ∃ n, findNode r.ring (fnv1aHash u) = some n ∧ n ∈ r.ring ∧
        r.route u = some ((⟨n.workerId, u, fnv1aHash u, true⟩ : RoutingDecision),
          { r with routingCache := mapSet r.routingCache u n.workerId })) ∧
    (∀ d r2 d2 r3, r.route u = some (d, r2) → r2.route u = some (d2, r3) →
      d2.isNewAssignment = false) := by
  have hcached : ∀ w, mapGet r.routingCache u = some w → r.ring ≠ [] →
      r.route u = some ((⟨w, u, fnv1aHash u, false⟩ : RoutingDecision), r) := by
    intro w hw hring
    have hmem : w ∈ r.workers := hC _ (mapGet_eq_some_mem hw)
    exact route_cached hring hw (hW w hmem) (contains_iff_mem.mpr hmem)
  have hfresh : mapGet r.routingCache u = none → r.ring ≠ [] →
      ∃ n, findNode r.ring (fnv1aHash u) = some n ∧ n ∈ r.ring ∧
        r.route u = some ((⟨n.workerId, u, fnv1aHash u, true⟩ : RoutingDecision),
          { r with routingCache := mapSet r.routingCache u n.workerId }) := by
    intro hnone hring
    obtain ⟨x, rest, hr⟩ := List.exists_cons_of_ne_nil hring
    exact route_fresh hnone hr
  refine ⟨route_none_iff, hcached, hfresh, ?_⟩
  intro d r2 d2 r3 h1 h2
  have hring : r.ring ≠ [] := by
    intro hnil
    rw [route_none_iff.mpr hnil] at h1
    cases h1
  rcases hcv : mapGet r.routingCache u with _ | w
  · obtain ⟨n, hfind, hnmem, heq⟩ := hfresh hcv hring
    rw [heq] at h1
    obtain ⟨-, rfl⟩ := Prod.mk.injEq .. ▸ Option.some_inj.mp h1
    have hmem : n.workerId ∈ r.workers := hR n hnmem
    have h2c := route_cached
      (r := { r with routingCache := mapSet r.routingCache u n.workerId }) (u := u)
      hring (mapGet_mapSet_self r.routingCache u n.workerId)
      (hW _ hmem) (contains_iff_mem.mpr hmem)
    rw [h2c] at h2
    obtain ⟨rfl, -⟩ := Prod.mk.injEq .. ▸ Option.some_inj.mp h2
    rfl
  · rw [hcached w hcv hring] at h1
    obtain ⟨-, rfl⟩ := Prod.mk.injEq .. ▸ Option.some_inj.mp h1
    rw [hcached w hcv hring] at h2
    obtain ⟨rfl, -⟩ := Prod.mk.injEq .. ▸ Option.some_inj.mp h2
    rfl

/-- C2 (witness) for the amended contract at a concrete router. -/
theorem C2_route_contract_witness :
    ((∀ w ∈ ((StickyRouter.new 1).addWorker "a").workers, w ≠ "") ∧
      (∀ p ∈ ((StickyRouter.new 1).addWorker "a").routingCache,
        p.2 ∈ ((StickyRouter.new 1).addWorker "a").workers) ∧
      (∀ n ∈ ((StickyRouter.new 1).addWorker "a").ring,
        n.workerId ∈ ((StickyRouter.new 1).addWorker "a").workers)) ∧
    (((StickyRouter.new 1).addWorker "a").route "v" = none ↔
      ((StickyRouter.new 1).addWorker "a").ring = []) :=
  ⟨⟨by decide, by decide, by decide⟩,
    (C2_route_contract ((StickyRouter.new 1).addWorker "a") "v"
      (by decide) (by decide) (by decide)).1⟩

/-! ## Claim C3 -/

/-- C3 (counterexample): the implemented hash folds charCodeAt values
(UTF-16 code units), not UTF-8 bytes; on the one-character key "é"
(U+00E9, UTF-8 bytes c3 a9) the two differ. -/
theorem C3_counterexample :
    fnv1aHash "é" = 1812687940 ∧ fnv1aHashUtf8Spec "é" = 513665217 ∧
    fnv1aHash "é" ≠ fnv1aHashUtf8Spec "é" := by decide

/-- C3 (amended): the router's hash is FNV-1a with offset basis
0x811C9DC5 and prime 0x01000193, XOR-then-multiply per UTF-16 code unit
(charCodeAt); for keys consisting solely of ASCII characters — in
particular every virtual-node key built from ASCII worker ids — it
coincides with FNV-1a over the UTF-8 bytes. -/
theorem C3_hash_utf16 (s : String) (h : ∀ c ∈ s.data, c.toNat < 128) :
    fnv1aHash s = fnv1aHashUtf8Spec s := by
  unfold fnv1aHash fnv1aHashUtf8Spec
  have he : utf16Units s = utf8Bytes s := by
    unfold utf16Units utf8Bytes
    refine congrArg List.flatten (List.map_congr_left ?_)
    intro c hc
    have h1 := h c hc
    have h2 : c.toNat < 65536 := by omega
    simp only [h2, if_true, h1, if_pos]
  rw [he]

/-- C3 (witness) at the concrete virtual-node key of worker-0. -/
theorem C3_hash_utf16_witness :
    (∀ c ∈ ("worker-0:0" : String).data, c.toNat < 128) ∧
    fnv1aHash "worker-0:0" = fnv1aHashUtf8Spec "worker-0:0" :=
  ⟨by decide, C3_hash_utf16 "worker-0:0" (by decide)⟩

/-! ## Claim C9 -/

/-- C9 (counterexample): under the claim's bookkeeping, appending now and
dropping old entries yields 5 = maxRestartAttempts timestamps at the fifth
exit (times 0 s, 10 s, 20 s, 30 s, 40 s within a 60 s window), so the
claim demands Crashed; the code compares the count before appending now
and therefore restarts instead. -/
theorem C9_counterexample :
    ((([0, 10000, 20000, 30000] : List Nat) ++ [40000]).filter
        (fun t => 40000 - t < 60000)).length = 5 ∧
    (handleWorkerExitTimes [0, 10000, 20000, 30000] 40000 60000 5).crashed = false ∧
    (handleWorkerExitTimes [0, 10000, 20000, 30000] 40000 60000 5).restartTimes =
      [0, 10000, 20000, 30000, 40000] := by decide

/-- C9 (amended): on exit, entries older than restartWindow are dropped;
the slot latches Crashed exactly when at least maxRestartAttempts previous
exit times remain (the current exit is not counted), in which case now is
not recorded; otherwise now is appended and the slot is re-spawned. With
maxRestartAttempts 5 and a 60 s window, five crashes within 60 s latch
Crashed on the sixth exit, while a sixth exit more than 60 s after the
first leads to a restart. -/
theorem C9_restart_policy (times : List Nat) (now window m : Nat) :
    ((handleWorkerExitTimes times now window m).crashed = true ↔
      m ≤ (times.filter (fun t => now - t < window)).length) ∧
    (handleWorkerExitTimes times now window m).restartTimes =
      (times.filter (fun t => now - t < window)) ++
        (if m ≤ (times.filter (fun t => now - t < window)).length then [] else [now]) ∧
    (simulateExits [0, 10000, 20000, 30000, 40000, 50000] 60000 5).1 =
      [false, false, false, false, false, true] ∧
    (simulateExits [0, 10000, 20000, 30000, 40000, 61000] 60000 5).1 =
      [false, false, false, false, false, false] := by
  refine ⟨?_, ?_, by decide, by decide⟩ <;> unfold handleWorkerExitTimes <;>
    by_cases hc : m ≤ (times.filter (fun t => now - t < window)).length
  · simp [hc]
  · simp [hc]
  · simp [hc]
  · simp [hc]

/-! ## Claim C10 -/

/-- C10: the session-id sanitizer is not injective: the distinct ids
"a/b" and "a_b" sanitize identically, so getSessionPath returns the same
path for both under every sandbox root. -/
theorem C10_sanitization_collision :
    ("a/b" : String) ≠ "a_b" ∧
    sanitizeSessionId "a/b" = sanitizeSessionId "a_b" ∧
    ∀ root : List String, getSessionPathSegs root "a/b" = getSessionPathSegs root "a_b" := by
  refine ⟨by decide, by decide, ?_⟩
  intro root
  unfold getSessionPathSegs
  rw [show sanitizeSessionId "a/b" = sanitizeSessionId "a_b" from by decide]

/-! ## Claim C7: path sanitization -/

theorem resolve_step_norm (root : List String) (h : NormalizedSegs root) :
    ∀ acc, root.foldl
      (fun acc seg =>
        if seg = "." then acc
        else if seg = ".." then acc.dropLast
        else acc ++ [seg]) acc = acc ++ root := by
  induction root with
  | nil => intro acc; simp
  | cons a t ih =>
    intro acc
    have ha := h a (List.mem_cons_self a t)
    simp only [List.foldl_cons, if_neg ha.2.1, if_neg ha.2.2]
    rw [ih (fun seg hseg => h seg (List.mem_cons_of_mem a hseg)) (acc ++ [a])]
    simp

theorem resolveSegs_root_sub (root : List String) (h : NormalizedSegs root)
    (sub fname : String) (hsub : sub ≠ "" ∧ sub ≠ "." ∧ sub ≠ "..") :
    resolveSegs (root ++ [sub, fname]) =
      if fname = "." then root ++ [sub]
      else if fname = ".." then root
      else root ++ [sub, fname] := by
  unfold resolveSegs
  rw [List.foldl_append, resolve_step_norm root h []]
  simp only [List.nil_append, List.foldl_cons, List.foldl_nil]
  rw [if_neg hsub.2.1, if_neg hsub.2.2]
  by_cases h1 : fname = "."
  · rw [if_pos h1, if_pos h1]
  · rw [if_neg h1, if_neg h1]
    by_cases h2 : fname = ".."
    · rw [if_pos h2, if_pos h2, List.dropLast_concat]
    · rw [if_neg h2, if_neg h2, List.append_assoc]
      rfl

theorem sanitizeSessionId_allowed (s : String) :
    ∀ c ∈ (sanitizeSessionId s).data, sessionAllowed c = true := by
  intro c hc
  have hc2 : c ∈ s.data.map (fun c => if sessionAllowed c then c else '_') := hc
  rcases List.mem_map.mp hc2 with ⟨c0, _, rfl⟩
  by_cases h : sessionAllowed c0
  · simp [h]
  · simp [h]
    decide

theorem sanitizeName_allowed (s : String) :
    ∀ c ∈ (sanitizeName s).data, nameAllowed c = true := by
  intro c hc
  have hc2 : c ∈ s.data.map (fun c => if nameAllowed c then c else '_') := hc
  rcases List.mem_map.mp hc2 with ⟨c0, _, rfl⟩
  by_cases h : nameAllowed c0
  · simp [h]
  · simp [h]
    decide

theorem sessionAllowed_ne_slash {c : Char} (h : sessionAllowed c = true) : c ≠ '/' := by
  intro he
  subst he
  exact absurd h (by decide)

theorem nameAllowed_ne_slash {c : Char} (h : nameAllowed c = true) : c ≠ '/' := by
  intro he
  subst he
  exact absurd h (by decide)

theorem append_ext_ne_dots {s e : String} (h3 : 3 ≤ e.length) :
    s ++ e ≠ "." ∧ s ++ e ≠ ".." := by
  have h1 : ("." : String).length = 1 := rfl
  have h2 : (".." : String).length = 2 := rfl
  constructor <;> intro he <;> have hl := congrArg String.length he <;>
    rw [String.length_append] at hl <;> omega

/-- C7: every sandbox path helper sanitizes its externally-supplied name
to the corresponding allowlist before joining it under its subdirectory,
and the resulting path always resolves to a location under the sandbox
root: for the suffixed helpers (sessions, state, logs) the resolved path
is exactly the subdirectory entry; for temp and cache it never escapes the
root (the worst case, the input "..", resolves to the root itself). -/
theorem C7_path_sanitization (root : List String) (h : NormalizedSegs root) (s : String) :
    resolveSegs (getSessionPathSegs root s) =
      root ++ ["sessions", sanitizeSessionId s ++ ".json"] ∧
    resolveSegs (getStatePathSegs root s) = root ++ ["state", sanitizeName s ++ ".json"] ∧
    resolveSegs (getLogPathSegs root s) = root ++ ["logs", sanitizeName s ++ ".log"] ∧
    (∃ rest, resolveSegs (getTempPathSegs root s) = root ++ rest) ∧
    (∃ rest, resolveSegs (getCachePathSegs root s) = root ++ rest) ∧
    (∀ c ∈ (sanitizeSessionId s).data, sessionAllowed c = true) ∧
    (∀ c ∈ (sanitizeName s).data, nameAllowed c = true) ∧
    (∀ c ∈ (sanitizeSessionId s).data, c ≠ '/') ∧
    (∀ c ∈ (sanitizeName s).data, c ≠ '/') := by
  have hjson : 3 ≤ (".json" : String).length := by decide
  have hlog : 3 ≤ (".log" : String).length := by decide
  refine ⟨?_, ?_, ?_, ?_, ?_, sanitizeSessionId_allowed s, sanitizeName_allowed s,
    fun c hc => sessionAllowed_ne_slash (sanitizeSessionId_allowed s c hc),
    fun c hc => nameAllowed_ne_slash (sanitizeName_allowed s c hc)⟩
  · rw [getSessionPathSegs, resolveSegs_root_sub root h _ _ (by decide)]
    rw [if_neg (append_ext_ne_dots hjson).1, if_neg (append_ext_ne_dots hjson).2]
  · rw [getStatePathSegs, resolveSegs_root_sub root h _ _ (by decide)]
    rw [if_neg (append_ext_ne_dots hjson).1, if_neg (append_ext_ne_dots hjson).2]
  · rw [getLogPathSegs, resolveSegs_root_sub root h _ _ (by decide)]
    rw [if_neg (append_ext_ne_dots hlog).1, if_neg (append_ext_ne_dots hlog).2]
  · rw [getTempPathSegs, resolveSegs_root_sub root h _ _ (by decide)]
    by_cases h1 : sanitizeName s = "."
    · rw [if_pos h1]; exact ⟨["temp"], rfl⟩
    · rw [if_neg h1]
      by_cases h2 : sanitizeName s = ".."
      · rw [if_pos h2]; exact ⟨[], by simp⟩
      · rw [if_neg h2]; exact ⟨["temp", sanitizeName s], rfl⟩
  · rw [getCachePathSegs, resolveSegs_root_sub root h _ _ (by decide)]
    by_cases h1 : sanitizeName s = "."
    · rw [if_pos h1]; exact ⟨["cache"], rfl⟩
    · rw [if_neg h1]
      by_cases h2 : sanitizeName s = ".."
      · rw [if_pos h2]; exact ⟨[], by simp⟩
      · rw [if_neg h2]; exact ⟨["cache", sanitizeName s], rfl⟩

/-- C7 (witness) at a concrete root and a traversal-attempt input. -/
theorem C7_path_sanitization_witness :
    NormalizedSegs ["tmp", "moltbot-workers", "worker-0"] ∧
    resolveSegs (getSessionPathSegs ["tmp", "moltbot-workers", "worker-0"]
        "../../../etc/passwd") =
      ["tmp", "moltbot-workers", "worker-0"] ++
        ["sessions", sanitizeSessionId "../../../etc/passwd" ++ ".json"] :=
  ⟨fun seg hseg => by fin_cases hseg <;> exact ⟨by decide, by decide, by decide⟩,
    (C7_path_sanitization ["tmp", "moltbot-workers", "worker-0"]
      (fun seg hseg => by fin_cases hseg <;> exact ⟨by decide, by decide, by decide⟩)
      "../../../etc/passwd").1⟩

/-! ## Claim C8: instance key persistence -/

theorem hexVal_hexDigit : ∀ d, d < 16 → hexVal (hexDigit d) = some d := by decide

theorem hexDigit_not_ws : ∀ d, d < 16 → jsWhitespace (hexDigit d) = false := by decide

theorem hexDecode_hexEncode : ∀ (bs : List Nat), (∀ b ∈ bs, b < 256) →
    hexDecode (hexEncode bs) = bs := by
  intro bs
  induction bs with
  | nil => intro _; rfl
  | cons b t ih =>
    intro h
    have hb : b < 256 := h b (List.mem_cons_self b t)
    have hchars : (hexEncode (b :: t)).data =
        hexDigit (b / 16) :: hexDigit (b % 16) :: (hexEncode t).data := rfl
    show hexDecodeChars (hexEncode (b :: t)).data = b :: t
    rw [hchars]
    show (match hexVal (hexDigit (b / 16)), hexVal (hexDigit (b % 16)) with
      | some h, some l => (16 * h + l) :: hexDecodeChars (hexEncode t).data
      | _, _ => []) = b :: t
    rw [hexVal_hexDigit _ (by omega), hexVal_hexDigit _ (by omega)]
    show (16 * (b / 16) + b % 16) :: hexDecodeChars (hexEncode t).data = b :: t
    have ih2 : hexDecodeChars (hexEncode t).data = t :=
      ih (fun b2 hb2 => h b2 (List.mem_cons_of_mem b hb2))
    have hdm : 16 * (b / 16) + b % 16 = b := by omega
    rw [ih2, hdm]

theorem dropWhile_eq_self_of_all {p : Char → Bool} {l : List Char}
    (h : ∀ c ∈ l, p c = false) : l.dropWhile p = l := by
  cases l with
  | nil => rfl
  | cons c t =>
    rw [List.dropWhile_cons, h c (List.mem_cons_self c t)]
    simp

theorem jsTrim_eq_self {s : String} (h : ∀ c ∈ s.data, jsWhitespace c = false) :
    jsTrim s = s := by
  unfold jsTrim
  rw [dropWhile_eq_self_of_all h,
    dropWhile_eq_self_of_all (fun c hc => h c (List.mem_reverse.mp hc)),
    List.reverse_reverse]

theorem hexEncode_no_ws {bs : List Nat} (h : ∀ b ∈ bs, b < 256) :
    ∀ c ∈ (hexEncode bs).data, jsWhitespace c = false := by
  intro c hc
  have hc2 : c ∈ (bs.map (fun b => [hexDigit (b / 16), hexDigit (b % 16)])).flatten := hc
  rcases List.mem_flatten.mp hc2 with ⟨l, hl, hcl⟩
  rcases List.mem_map.mp hl with ⟨b, hb, rfl⟩
  have hblt := h b hb
  have hcl2 : c ∈ [hexDigit (b / 16), hexDigit (b % 16)] := hcl
  rcases List.mem_cons.mp hcl2 with rfl | hcl3
  · exact hexDigit_not_ws _ (by omega)
  · rcases List.mem_singleton.mp hcl3 with rfl
    exact hexDigit_not_ws _ (by omega)

/-- C8: the sandbox generates the 32-byte instance.key and instance.id on
the first initialization only: starting from an empty keys directory the
generated key is persisted hex-encoded; a later getOrCreateInstanceKeys on
the resulting directory (with arbitrary fresh randomness and time) reads
the files back, returns the same private key and instance id, writes
nothing, and its fingerprint is the first 8 bytes of the private key
rendered as hex. -/
theorem C8_instance_keys (wid : String) (rnd32 rnd4 r2 r3 : List Nat) (now n2 : Nat)
    (h32 : ∀ b ∈ rnd32, b < 256)
    (h4 : ∀ b ∈ rnd4, b < 256)
    (hwid : ∀ c ∈ wid.data, jsWhitespace c = false)
    (hnow : ∀ c ∈ (toString now).data, jsWhitespace c = false) :
    (getOrCreateInstanceKeys wid ⟨none, none⟩ rnd32 rnd4 now).1.privateKey = rnd32 ∧
    (getOrCreateInstanceKeys wid ⟨none, none⟩ rnd32 rnd4 now).1.fingerprint =
      hexEncode (rnd32.take 8) ∧
    (getOrCreateInstanceKeys wid ⟨none, none⟩ rnd32 rnd4 now).2 =
      ⟨some (hexEncode rnd32),
        some (wid ++ "-" ++ toString now ++ "-" ++ hexEncode rnd4)⟩ ∧
    (getOrCreateInstanceKeys wid
      (getOrCreateInstanceKeys wid ⟨none, none⟩ rnd32 rnd4 now).2 r2 r3 n2).1.privateKey
      = rnd32 ∧
    (getOrCreateInstanceKeys wid
      (getOrCreateInstanceKeys wid ⟨none, none⟩ rnd32 rnd4 now).2 r2 r3 n2).1.instanceId
      = (getOrCreateInstanceKeys wid ⟨none, none⟩ rnd32 rnd4 now).1.instanceId ∧
    (getOrCreateInstanceKeys wid
      (getOrCreateInstanceKeys wid ⟨none, none⟩ rnd32 rnd4 now).2 r2 r3 n2).2
      = (getOrCreateInstanceKeys wid ⟨none, none⟩ rnd32 rnd4 now).2 ∧
    (getOrCreateInstanceKeys wid
      (getOrCreateInstanceKeys wid ⟨none, none⟩ rnd32 rnd4 now).2 r2 r3 n2).1.fingerprint
      = hexEncode (rnd32.take 8) := by
  have hkeytrim : jsTrim (hexEncode rnd32) = hexEncode rnd32 :=
    jsTrim_eq_self (hexEncode_no_ws h32)
  have hdec : hexDecode (jsTrim (hexEncode rnd32)) = rnd32 := by
    rw [hkeytrim]
    exact hexDecode_hexEncode rnd32 h32
  have hidtrim : jsTrim (wid ++ "-" ++ toString now ++ "-" ++ hexEncode rnd4) =
      wid ++ "-" ++ toString now ++ "-" ++ hexEncode rnd4 := by
    refine jsTrim_eq_self ?_
    intro c hc
    simp only [String.data_append, List.mem_append] at hc
    rcases hc with (((hc | hc) | hc) | hc) | hc
    · exact hwid c hc
    · obtain rfl : c = '-' := by
        have hc2 : c ∈ ['-'] := hc
        simpa using hc2
      decide
    · exact hnow c hc
    · obtain rfl : c = '-' := by
        have hc2 : c ∈ ['-'] := hc
        simpa using hc2
      decide
    · exact hexEncode_no_ws h4 c hc
  refine ⟨rfl, rfl, rfl, ?_, ?_, ?_, ?_⟩
  · show hexDecode (jsTrim (hexEncode rnd32)) = rnd32
    exact hdec
  · show jsTrim (wid ++ "-" ++ toString now ++ "-" ++ hexEncode rnd4) = _
    rw [hidtrim]
    rfl
  · rfl
  · show hexEncode ((hexDecode (jsTrim (hexEncode rnd32))).take 8) = _
    rw [hdec]

/-- C8 (witness) at concrete randomness and worker id. -/
theorem C8_instance_keys_witness :
    ((∀ b ∈ List.range 32, b < 256) ∧ (∀ b ∈ ([1, 2, 3, 4] : List Nat), b < 256) ∧
      (∀ c ∈ ("worker-0" : String).data, jsWhitespace c = false) ∧
      (∀ c ∈ (toString 5).data, jsWhitespace c = false)) ∧
    (getOrCreateInstanceKeys "worker-0"
      (getOrCreateInstanceKeys "worker-0" ⟨none, none⟩ (List.range 32) [1, 2, 3, 4] 5).2
      [9] [9] 77).1.privateKey = List.range 32 :=
  ⟨⟨by decide, by decide, by decide, by decide⟩,
    (C8_instance_keys "worker-0" (List.range 32) [1, 2, 3, 4] [9] [9] 5 77
      (by decide) (by decide) (by decide) (by decide)).2.2.2.1⟩

/-! ## Claims C4 and C5 -/

/-- C4: the router consistency invariant — every cached assignment maps to
a registered worker, every registered worker owns exactly virtualNodes
ring nodes, and every ring node references a registered worker — holds of
a fresh import and is preserved by addWorker, removeWorker, route,
forceAssign, clearAssignment, clearCache and fromState. -/
theorem C4_invariant_preservation {r : StickyRouter} (h : r.Inv) :
    (∀ w, (r.addWorker w).Inv) ∧
    (∀ w, (r.removeWorker w).Inv) ∧
    (∀ u d r2, r.route u = some (d, r2) → r2.Inv) ∧
    (∀ u w r2, r.forceAssign u w = some r2 → r2.Inv) ∧
    (∀ u, (r.clearAssignment u).Inv) ∧
    r.clearCache.Inv ∧
    (∀ st, (StickyRouter.fromState st).Inv) ∧
    (∀ p ∈ r.routingCache, p.2 ∈ r.workers) ∧
    (∀ w ∈ r.workers, r.ring.countP (fun n => n.workerId == w) = r.virtualNodes) ∧
    (∀ n ∈ r.ring, n.workerId ∈ r.workers) :=
  ⟨inv_addWorker h, inv_removeWorker h,
    fun _ _ _ hr => inv_route h hr,
    fun _ _ _ hf => inv_forceAssign h hf,
    inv_clearAssignment h, inv_clearCache h, inv_fromState,
    h.1, h.2.1, h.2.2⟩

/-- C4 (witness) at the fresh router with one worker added. -/
theorem C4_invariant_preservation_witness :
    (StickyRouter.new 150).Inv ∧
    ((StickyRouter.new 150).addWorker "worker-0").Inv :=
  ⟨inv_new 150, (C4_invariant_preservation (inv_new 150)).1 "worker-0"⟩

/-- C5: for every router reachable through the public API, importing its
exported state reproduces it exactly — same worker set, same assignment
cache, same virtualNodes, and identical route outputs on every user id —
and on any imported state every surviving cache entry maps to a registered
worker, i.e. assignments naming a worker outside the state's worker list
are dropped. -/
theorem C5_export_import_roundtrip {r : StickyRouter}
    (h : StickyRouter.Reachable r) :
    (StickyRouter.fromState r.exportState).workers = r.workers ∧
    (StickyRouter.fromState r.exportState).routingCache = r.routingCache ∧
    (StickyRouter.fromState r.exportState).virtualNodes = r.virtualNodes ∧
    (∀ u, (StickyRouter.fromState r.exportState).route u = r.route u) ∧
    (∀ st : StickyRouterState, ∀ p ∈ (StickyRouter.fromState st).routingCache,
      p.2 ∈ (StickyRouter.fromState st).workers) := by
  obtain ⟨hinv, hwf⟩ := reachable_inv_wf h
  have he := fromState_exportState_eq hinv hwf
  exact ⟨by rw [he], by rw [he], by rw [he], fun u => by rw [he],
    fun st p hp => (inv_fromState st).1 p hp⟩

/-- C5 (witness) at a reachable router with one worker. -/
theorem C5_export_import_roundtrip_witness :
    StickyRouter.Reachable ((StickyRouter.new 150).addWorker "worker-0") ∧
    (StickyRouter.fromState
        ((StickyRouter.new 150).addWorker "worker-0").exportState).workers
      = ((StickyRouter.new 150).addWorker "worker-0").workers :=
  ⟨.addWorker "worker-0" (.new 150),
    (C5_export_import_roundtrip (.addWorker "worker-0" (.new 150))).1⟩

/-! ## Claim C6: distribution on the 4-worker router -/

theorem c6Ring_ne_nil : c6RingLit ≠ [] := by decide

theorem c6Ring_sorted : NodeSorted c6RingLit :=
  nodeSorted_of_sortedByHash (by decide)

theorem mem_mergeGo : ∀ {f : Nat} {a b : List HashRingNode} {n : HashRingNode},
    n ∈ mergeGo f a b → n ∈ a ∨ n ∈ b
  | 0, a, b, n, h => by
    rw [show mergeGo 0 a b = a ++ b from rfl] at h
    exact List.mem_append.mp h
  | _ + 1, [], b, n, h => by
    simp only [mergeGo] at h
    exact Or.inr h
  | _ + 1, x :: xs, [], n, h => by
    simp only [mergeGo] at h
    exact Or.inl h
  | f + 1, x :: xs, y :: ys, n, h => by
    simp only [mergeGo] at h
    by_cases hc : nodeLe x y = true
    · rw [if_pos hc] at h
      rcases List.mem_cons.mp h with rfl | h
      · exact Or.inl (List.mem_cons_self _ _)
      · rcases mem_mergeGo h with h | h
        · exact Or.inl (List.mem_cons_of_mem _ h)
        · exact Or.inr h
    · rw [if_neg hc] at h
      rcases List.mem_cons.mp h with rfl | h
      · exact Or.inr (List.mem_cons_self _ _)
      · rcases mem_mergeGo h with h | h
        · exact Or.inl h
        · exact Or.inr (List.mem_cons_of_mem _ h)

theorem mergeGo_sorted : ∀ {f : Nat} {a b : List HashRingNode},
    a.length + b.length ≤ f → NodeSorted a → NodeSorted b →
    NodeSorted (mergeGo f a b)
  | 0, a, b, hf, _, _ => by
    have ha0 : a = [] := List.eq_nil_of_length_eq_zero (by omega)
    have hb0 : b = [] := List.eq_nil_of_length_eq_zero (by omega)
    subst ha0
    subst hb0
    exact List.Pairwise.nil
  | _ + 1, [], b, _, _, hb => by
    simp only [mergeGo]
    exact hb
  | _ + 1, x :: xs, [], _, ha, _ => by
    simp only [mergeGo]
    exact ha
  | f + 1, x :: xs, y :: ys, hf, ha, hb => by
    rcases List.pairwise_cons.mp ha with ⟨hxall, hxs⟩
    rcases List.pairwise_cons.mp hb with ⟨hyall, hys⟩
    have hlen : xs.length + (y :: ys).length ≤ f := by
      simp only [List.length_cons] at hf ⊢
      omega
    have hlen2 : (x :: xs).length + ys.length ≤ f := by
      simp only [List.length_cons] at hf ⊢
      omega
    simp only [mergeGo]
    by_cases hc : nodeLe x y = true
    · rw [if_pos hc]
      refine List.pairwise_cons.mpr ⟨?_, mergeGo_sorted hlen hxs hb⟩
      intro z hz
      rcases mem_mergeGo hz with hz | hz
      · exact hxall z hz
      · rcases List.mem_cons.mp hz with rfl | hz
        · exact hc
        · have hyz := hyall z hz
          simp only [nodeLe, decide_eq_true_eq] at hc hyz ⊢
          omega
    · rw [if_neg hc]
      refine List.pairwise_cons.mpr ⟨?_, mergeGo_sorted hlen2 ha hys⟩
      intro z hz
      rcases mem_mergeGo hz with hz | hz
      · rcases List.mem_cons.mp hz with rfl | hz
        · simp only [nodeLe, decide_eq_true_eq] at hc ⊢
          omega
        · have hxz := hxall z hz
          simp only [nodeLe, decide_eq_true_eq] at hc hxz ⊢
          omega
      · exact hyall z hz

theorem hashFilter_nil_of_lt {h : Nat} {x : HashRingNode} {xs : List HashRingNode}
    (hs : NodeSorted (x :: xs)) (hlt : h < x.hash) : hashFilter h (x :: xs) = [] := by
  rw [hashFilter, List.filter_eq_nil_iff]
  intro n hn
  rcases List.pairwise_cons.mp hs with ⟨hall, -⟩
  rcases List.mem_cons.mp hn with rfl | hn
  · simp only [beq_iff_eq]
    omega
  · have hxn := hall n hn
    simp only [nodeLe, decide_eq_true_eq] at hxn
    simp only [beq_iff_eq]
    omega

theorem hashFilter_mergeGo : ∀ {f : Nat} {a b : List HashRingNode} (h : Nat),
    a.length + b.length ≤ f → NodeSorted a →
    hashFilter h (mergeGo f a b) = hashFilter h a ++ hashFilter h b
  | 0, a, b, h, hf, _ => by
    have ha0 : a = [] := List.eq_nil_of_length_eq_zero (by omega)
    have hb0 : b = [] := List.eq_nil_of_length_eq_zero (by omega)
    subst ha0
    subst hb0
    rfl
  | _ + 1, [], b, h, _, _ => by
    simp only [mergeGo]
    rfl
  | _ + 1, x :: xs, [], h, _, _ => by
    simp only [mergeGo]
    rw [show hashFilter h ([] : List HashRingNode) = [] from rfl, List.append_nil]
  | f + 1, x :: xs, y :: ys, h, hf, ha => by
    have hlen : xs.length + (y :: ys).length ≤ f := by
      simp only [List.length_cons] at hf ⊢
      omega
    have hlen2 : (x :: xs).length + ys.length ≤ f := by
      simp only [List.length_cons] at hf ⊢
      omega
    rcases List.pairwise_cons.mp ha with ⟨hxall, hxs⟩
    simp only [mergeGo]
    by_cases hc : nodeLe x y = true
    · rw [if_pos hc, hashFilter_cons, hashFilter_mergeGo h hlen hxs,
        @hashFilter_cons h x xs]
      by_cases hx : x.hash == h
      · rw [if_pos hx, if_pos hx]
        rfl
      · rw [if_neg hx, if_neg hx]
    · rw [if_neg hc, hashFilter_cons, hashFilter_mergeGo h hlen2 ha,
        @hashFilter_cons h y ys]
      by_cases hy : y.hash == h
      · rw [if_pos hy, if_pos hy]
        have hnil : hashFilter h (x :: xs) = [] := by
          refine hashFilter_nil_of_lt ha ?_
          simp only [nodeLe, decide_eq_true_eq] at hc
          simp only [beq_iff_eq] at hy
          omega
        rw [hnil]
        rfl
      · rw [if_neg hy, if_neg hy]

theorem mergeNodes_eq_sortNodes {a b : List HashRingNode}
    (ha : NodeSorted a) (hb : NodeSorted b) :
    mergeNodes a b = sortNodes (a ++ b) := by
  unfold mergeNodes
  refine sorted_eq_of_hashFilter_eq (mergeGo_sorted le_rfl ha hb) (sortNodes_sorted _) ?_
  intro h
  rw [hashFilter_mergeGo h le_rfl ha, hashFilter_sortNodes, hashFilter_append]

theorem sortNodes_append_right (x y : List HashRingNode) :
    sortNodes (x ++ sortNodes y) = sortNodes (x ++ y) := by
  refine sorted_eq_of_hashFilter_eq (sortNodes_sorted _) (sortNodes_sorted _) ?_
  intro h
  rw [hashFilter_sortNodes, hashFilter_sortNodes, hashFilter_append, hashFilter_append,
    hashFilter_sortNodes]

theorem sortNodes_append_eq_merge (x y : List HashRingNode) :
    sortNodes (x ++ y) = mergeNodes (sortNodes x) (sortNodes y) := by
  rw [mergeNodes_eq_sortNodes (sortNodes_sorted x) (sortNodes_sorted y),
    sortNodes_append_right, sortNodes_sortNodes_append]

theorem c6_block0_sorted : sortNodes (nodeBlock "worker-0" 150) = c6Block0Lit := by
  decide

theorem c6_block1_sorted : sortNodes (nodeBlock "worker-1" 150) = c6Block1Lit := by
  decide

theorem c6_block2_sorted : sortNodes (nodeBlock "worker-2" 150) = c6Block2Lit := by
  decide

theorem c6_block3_sorted : sortNodes (nodeBlock "worker-3" 150) = c6Block3Lit := by
  decide

theorem c6_merge23 : mergeNodes c6Block2Lit c6Block3Lit = c6Merge23Lit := by
  decide

theorem c6_merge123 : mergeNodes c6Block1Lit c6Merge23Lit = c6Merge123Lit := by
  decide

theorem c6_merge0123 : mergeNodes c6Block0Lit c6Merge123Lit = c6RingLit := by
  decide

theorem c6Ring_sort_eq :
    sortNodes (((["worker-0", "worker-1", "worker-2", "worker-3"] : List WorkerId).map
      (fun x => nodeBlock x 150)).flatten) = c6RingLit := by
  have hflat : ((["worker-0", "worker-1", "worker-2", "worker-3"] : List WorkerId).map
      (fun x => nodeBlock x 150)).flatten =
      nodeBlock "worker-0" 150 ++ (nodeBlock "worker-1" 150 ++
        (nodeBlock "worker-2" 150 ++ (nodeBlock "worker-3" 150 ++ []))) := rfl
  rw [hflat, List.append_nil, sortNodes_append_eq_merge,
    sortNodes_append_eq_merge, sortNodes_append_eq_merge,
    c6_block0_sorted, c6_block1_sorted, c6_block2_sorted, c6_block3_sorted,
    c6_merge23, c6_merge123, c6_merge0123]

theorem c6Router_eq :
    c6Router.ring = c6RingLit ∧
    c6Router.workers = ["worker-0", "worker-1", "worker-2", "worker-3"] ∧
    c6Router.routingCache = [] ∧ c6Router.virtualNodes = 150 := by
  have h0 : c6Router = (["worker-0", "worker-1", "worker-2", "worker-3"]
      : List WorkerId).foldl (fun r w => r.addWorker w) (StickyRouter.new 150) := by
    show (List.range 4).foldl (fun r i => r.addWorker ("worker-" ++ toString i))
      (StickyRouter.new 150) = _
    rw [show (["worker-0", "worker-1", "worker-2", "worker-3"] : List WorkerId) =
      (List.range 4).map (fun i => "worker-" ++ toString i) from rfl, List.foldl_map]
  obtain ⟨hw, hr, hc, hv⟩ := foldl_addWorker_spec 150
    ["worker-0", "worker-1", "worker-2", "worker-3"] (StickyRouter.new 150)
    rfl (fun w _ => List.not_mem_nil w) (by decide) rfl
  rw [show (StickyRouter.new 150).workers ++
    ["worker-0", "worker-1", "worker-2", "worker-3"] =
    (["worker-0", "worker-1", "worker-2", "worker-3"] : List WorkerId) from rfl] at hw hr
  rw [h0]
  refine ⟨?_, hw, hc, hv⟩
  rw [hr, c6Ring_sort_eq]

theorem c6_map_chunk0 :
    ((c6Users.drop 0).take 50).map (fun u => workerFor c6RingLit (fnv1aHash u)) =
      (c6AssignedLit.drop 0).take 50 := by
  decide

theorem c6_map_chunk50 :
    ((c6Users.drop 50).take 50).map (fun u => workerFor c6RingLit (fnv1aHash u)) =
      (c6AssignedLit.drop 50).take 50 := by
  decide

theorem c6_map_chunk100 :
    ((c6Users.drop 100).take 50).map (fun u => workerFor c6RingLit (fnv1aHash u)) =
      (c6AssignedLit.drop 100).take 50 := by
  decide

theorem c6_map_chunk150 :
    ((c6Users.drop 150).take 50).map (fun u => workerFor c6RingLit (fnv1aHash u)) =
      (c6AssignedLit.drop 150).take 50 := by
  decide

theorem c6_map_chunk200 :
    ((c6Users.drop 200).take 50).map (fun u => workerFor c6RingLit (fnv1aHash u)) =
      (c6AssignedLit.drop 200).take 50 := by
  decide

theorem c6_map_chunk250 :
    ((c6Users.drop 250).take 50).map (fun u => workerFor c6RingLit (fnv1aHash u)) =
      (c6AssignedLit.drop 250).take 50 := by
  decide

theorem c6_map_chunk300 :
    ((c6Users.drop 300).take 50).map (fun u => workerFor c6RingLit (fnv1aHash u)) =
      (c6AssignedLit.drop 300).take 50 := by
  decide

theorem c6_map_chunk350 :
    ((c6Users.drop 350).take 50).map (fun u => workerFor c6RingLit (fnv1aHash u)) =
      (c6AssignedLit.drop 350).take 50 := by
  decide

theorem c6_map_chunk400 :
    ((c6Users.drop 400).take 50).map (fun u => workerFor c6RingLit (fnv1aHash u)) =
      (c6AssignedLit.drop 400).take 50 := by
  decide

theorem c6_map_chunk450 :
    ((c6Users.drop 450).take 50).map (fun u => workerFor c6RingLit (fnv1aHash u)) =
      (c6AssignedLit.drop 450).take 50 := by
  decide

theorem c6_map_chunk500 :
    ((c6Users.drop 500).take 50).map (fun u => workerFor c6RingLit (fnv1aHash u)) =
      (c6AssignedLit.drop 500).take 50 := by
  decide

theorem c6_map_chunk550 :
    ((c6Users.drop 550).take 50).map (fun u => workerFor c6RingLit (fnv1aHash u)) =
      (c6AssignedLit.drop 550).take 50 := by
  decide

theorem c6_map_chunk600 :
    ((c6Users.drop 600).take 50).map (fun u => workerFor c6RingLit (fnv1aHash u)) =
      (c6AssignedLit.drop 600).take 50 := by
  decide

theorem c6_map_chunk650 :
    ((c6Users.drop 650).take 50).map (fun u => workerFor c6RingLit (fnv1aHash u)) =
      (c6AssignedLit.drop 650).take 50 := by
  decide

theorem c6_map_chunk700 :
    ((c6Users.drop 700).take 50).map (fun u => workerFor c6RingLit (fnv1aHash u)) =
      (c6AssignedLit.drop 700).take 50 := by
  decide

theorem c6_map_chunk750 :
    ((c6Users.drop 750).take 50).map (fun u => workerFor c6RingLit (fnv1aHash u)) =
      (c6AssignedLit.drop 750).take 50 := by
  decide

theorem c6_map_chunk800 :
    ((c6Users.drop 800).take 50).map (fun u => workerFor c6RingLit (fnv1aHash u)) =
      (c6AssignedLit.drop 800).take 50 := by
  decide

theorem c6_map_chunk850 :
    ((c6Users.drop 850).take 50).map (fun u => workerFor c6RingLit (fnv1aHash u)) =
      (c6AssignedLit.drop 850).take 50 := by
  decide

theorem c6_map_chunk900 :
    ((c6Users.drop 900).take 50).map (fun u => workerFor c6RingLit (fnv1aHash u)) =
      (c6AssignedLit.drop 900).take 50 := by
  decide

theorem c6_map_chunk950 :
    ((c6Users.drop 950).take 50).map (fun u => workerFor c6RingLit (fnv1aHash u)) =
      (c6AssignedLit.drop 950).take 50 := by
  decide

theorem c6_map_end :
    (c6Users.drop 1000).map (fun u => workerFor c6RingLit (fnv1aHash u)) =
      c6AssignedLit.drop 1000 := by
  decide

theorem c6_map_glue (n : Nat)
    (h1 : ((c6Users.drop n).take 50).map (fun u => workerFor c6RingLit (fnv1aHash u)) =
      (c6AssignedLit.drop n).take 50)
    (h2 : (c6Users.drop (n + 50)).map (fun u => workerFor c6RingLit (fnv1aHash u)) =
      c6AssignedLit.drop (n + 50)) :
    (c6Users.drop n).map (fun u => workerFor c6RingLit (fnv1aHash u)) =
      c6AssignedLit.drop n := by
  conv_lhs => rw [← List.take_append_drop 50 (c6Users.drop n)]
  rw [List.map_append, h1, List.drop_drop, h2, ← List.drop_drop,
    List.take_append_drop]

theorem c6_assigned_map :
    c6Users.map (fun u => workerFor c6RingLit (fnv1aHash u)) = c6AssignedLit := by
  have t1000 := c6_map_end
  have t950 := c6_map_glue 950 c6_map_chunk950 t1000
  have t900 := c6_map_glue 900 c6_map_chunk900 t950
  have t850 := c6_map_glue 850 c6_map_chunk850 t900
  have t800 := c6_map_glue 800 c6_map_chunk800 t850
  have t750 := c6_map_glue 750 c6_map_chunk750 t800
  have t700 := c6_map_glue 700 c6_map_chunk700 t750
  have t650 := c6_map_glue 650 c6_map_chunk650 t700
  have t600 := c6_map_glue 600 c6_map_chunk600 t650
  have t550 := c6_map_glue 550 c6_map_chunk550 t600
  have t500 := c6_map_glue 500 c6_map_chunk500 t550
  have t450 := c6_map_glue 450 c6_map_chunk450 t500
  have t400 := c6_map_glue 400 c6_map_chunk400 t450
  have t350 := c6_map_glue 350 c6_map_chunk350 t400
  have t300 := c6_map_glue 300 c6_map_chunk300 t350
  have t250 := c6_map_glue 250 c6_map_chunk250 t300
  have t200 := c6_map_glue 200 c6_map_chunk200 t250
  have t150 := c6_map_glue 150 c6_map_chunk150 t200
  have t100 := c6_map_glue 100 c6_map_chunk100 t150
  have t50 := c6_map_glue 50 c6_map_chunk50 t100
  have t0 := c6_map_glue 0 c6_map_chunk0 t50
  rw [List.drop_zero, List.drop_zero] at t0
  exact t0

theorem c6_counts :
    (51 ≤ c6AssignedLit.countP (fun x => x == "worker-0") ∧
      c6AssignedLit.countP (fun x => x == "worker-0") ≤ 499) ∧
    (51 ≤ c6AssignedLit.countP (fun x => x == "worker-1") ∧
      c6AssignedLit.countP (fun x => x == "worker-1") ≤ 499) ∧
    (51 ≤ c6AssignedLit.countP (fun x => x == "worker-2") ∧
      c6AssignedLit.countP (fun x => x == "worker-2") ≤ 499) ∧
    (51 ≤ c6AssignedLit.countP (fun x => x == "worker-3") ∧
      c6AssignedLit.countP (fun x => x == "worker-3") ≤ 499) := by
  decide

theorem c6_routeAll_cache :
    (routeAll c6Router c6Users).workers =
      ["worker-0", "worker-1", "worker-2", "worker-3"] ∧
    (routeAll c6Router c6Users).routingCache =
      c6Users.map (fun u => (u, workerFor c6RingLit (fnv1aHash u))) := by
  obtain ⟨hring, hworkers, hcache, hvn⟩ := c6Router_eq
  have hne : c6Router.ring ≠ [] := by
    rw [hring]
    exact c6Ring_ne_nil
  have hfresh : ∀ u ∈ c6Users, mapGet c6Router.routingCache u = none := by
    intro u _
    rw [hcache]
    rfl
  obtain ⟨h1, h2, h3, h4⟩ := routeAll_fresh c6Users c6Router hne c6Users_nodup hfresh
  constructor
  · rw [h2, hworkers]
  · rw [h4, hcache, hring, List.nil_append]
    refine List.map_congr_left (fun u _ => ?_)
    rw [findNode_workerId_eq_workerFor c6Ring_sorted c6Ring_ne_nil (fnv1aHash u)]

/-- C6: on the router with workers worker-0 .. worker-3 and the default
150 virtual nodes, routing the 1000 distinct user ids user-0 .. user-999
gives every worker between 51 and 499 cached assignments. -/
theorem C6_distribution :
    ∀ w ∈ (routeAll c6Router c6Users).workers,
      51 ≤ (routeAll c6Router c6Users).routingCache.countP (fun p => p.2 == w) ∧
      (routeAll c6Router c6Users).routingCache.countP (fun p => p.2 == w) ≤ 499 := by
  intro w hw
  rw [c6_routeAll_cache.1] at hw
  have hcount :
      (c6Users.map (fun u => (u, workerFor c6RingLit (fnv1aHash u)))).countP
        (fun p => p.2 == w) = c6AssignedLit.countP (fun x => x == w) := by
    rw [List.countP_map, ← c6_assigned_map, List.countP_map]
    rfl
  rw [c6_routeAll_cache.2, hcount]
  fin_cases hw
  · exact c6_counts.1
  · exact c6_counts.2.1
  · exact c6_counts.2.2.1
  · exact c6_counts.2.2.2

/-- C6 (witness) at worker-0: 313 of the 1000 assignments. -/
theorem C6_distribution_witness :
    "worker-0" ∈ (routeAll c6Router c6Users).workers ∧
    (51 ≤ (routeAll c6Router c6Users).routingCache.countP
        (fun p => p.2 == "worker-0") ∧
      (routeAll c6Router c6Users).routingCache.countP
        (fun p => p.2 == "worker-0") ≤ 499) := by
  have hmem : "worker-0" ∈ (routeAll c6Router c6Users).workers := by
    rw [c6_routeAll_cache.1]
    decide
  exact ⟨hmem, C6_distribution "worker-0" hmem⟩

end Moltbot
